import Mathlib

/-!
Verification of the IntentFI intent-settlement engine (Rust / Anchor programs
`contracts`, `devnet-contract`) against its natural-language specification.

The Rust source is shallowly embedded: machine integers (u8/u16/u64/u128) are
modelled as `Nat` with explicit bounds and `% 2 ^ w` at the places where the
source performs an `as uN` truncating cast; the `checked_*` arithmetic of the
source (and, following the specification's stated fatal-overflow semantics,
plain arithmetic on wide integers) is modelled by `Option`-returning helpers
where `none` is an arithmetic fault; fallible instructions return `Except`.
`Pubkey` is modelled as a natural number; the first byte of a key (the only
byte the source ever inspects, in `perform_rugproof_check`) is its value
modulo 256, and `Pubkey::new_from_array([b; 32])` is `repeated_byte_key b`.
-/

namespace Intentfi

/-- Checked u128 multiplication: `a.checked_mul(b)` faults when the product
does not fit in 128 bits. -/
def checked_mul_u128 (a b : Nat) : Option Nat :=
  if a * b < 2 ^ 128 then some (a * b) else none

/-- Checked u128 addition. -/
def checked_add_u128 (a b : Nat) : Option Nat :=
  if a + b < 2 ^ 128 then some (a + b) else none

/-- Checked u64 addition. -/
def checked_add_u64 (a b : Nat) : Option Nat :=
  if a + b < 2 ^ 64 then some (a + b) else none

/-- Checked u8 addition (for the `active_intents` counter). -/
def checked_add_u8 (a b : Nat) : Option Nat :=
  if a + b < 2 ^ 8 then some (a + b) else none

/-- Checked subtraction (u64 or u128): faults when the result would be
negative. -/
def checked_sub_nat (a b : Nat) : Option Nat :=
  if b ≤ a then some (a - b) else none

/-- Checked division: faults exactly when the divisor is zero. -/
def checked_div_nat (a b : Nat) : Option Nat :=
  if 0 < b then some (a / b) else none

/-- SPL token transfer between two u64 balances. Fails when the source
balance is insufficient or the destination balance would overflow; on
success it returns the updated `(source, destination)` pair. -/
def spl_transfer (src dst amount : Nat) : Option (Nat × Nat) :=
  if amount ≤ src ∧ dst + amount < 2 ^ 64 then some (src - amount, dst + amount)
  else none

/-- The pubkey `Pubkey::new_from_array([b; 32])` (little-endian value of the
byte repeated 32 times). -/
def repeated_byte_key (b : Nat) : Nat :=
  b * ((256 ^ 32 - 1) / 255)

/-- `calculate_raydium_output` from `integrations.rs`: constant-product swap
output with the fee taken from the input side, all multiplications in u128
before the single final division, result cast back to u64. -/
def calculate_raydium_output (amount_in reserve_in reserve_out fee_numerator fee_denominator : Nat) :
    Option Nat :=
  (checked_sub_nat fee_denominator fee_numerator).bind fun fee_multiplier =>
  (checked_mul_u128 amount_in fee_multiplier).bind fun amount_in_with_fee =>
  (checked_mul_u128 amount_in_with_fee reserve_out).bind fun numerator =>
  (checked_mul_u128 reserve_in fee_denominator).bind fun reserve_term =>
  (checked_add_u128 reserve_term amount_in_with_fee).bind fun denominator =>
  (checked_div_nat numerator denominator).map fun amount_out => amount_out % 2 ^ 64

/-- On any non-faulting run, the raydium output is exactly the floor
formula of the specification (the final `as u64` cast never truncates,
because the quotient is bounded by `reserve_out`), and the denominator of
that formula is positive. -/
theorem calculate_raydium_output_spec
    (amount_in reserve_in reserve_out fee_numerator fee_denominator v : Nat)
    (hro : reserve_out < 2 ^ 64)
    (h : calculate_raydium_output amount_in reserve_in reserve_out fee_numerator fee_denominator
        = some v) :
    fee_numerator ≤ fee_denominator ∧
      0 < reserve_in * fee_denominator + amount_in * (fee_denominator - fee_numerator) ∧
      v = amount_in * (fee_denominator - fee_numerator) * reserve_out /
            (reserve_in * fee_denominator + amount_in * (fee_denominator - fee_numerator)) := by
  simp only [calculate_raydium_output, checked_sub_nat, checked_mul_u128, checked_add_u128,
    checked_div_nat, Option.bind_eq_some, Option.map_eq_some',
    Option.ite_none_right_eq_some, Option.some.injEq] at h
  obtain ⟨fm, ⟨hfee, hfm⟩, aw, ⟨-, haw⟩, num, ⟨-, hnum⟩, rt, ⟨-, hrt⟩, den,
    ⟨-, hden⟩, q, ⟨hpos, hq⟩, hv⟩ := h
  subst hfm haw hnum hrt hden hq
  refine ⟨hfee, hpos, ?_⟩
  subst hv
  set aw := amount_in * (fee_denominator - fee_numerator) with haw
  have hlt : aw * reserve_out / (reserve_in * fee_denominator + aw) < 2 ^ 64 := by
    rcases Nat.eq_zero_or_pos aw with h0 | hawpos
    · rw [h0]
      simp
    · calc aw * reserve_out / (reserve_in * fee_denominator + aw)
          ≤ aw * reserve_out / aw := Nat.div_le_div_left (Nat.le_add_left _ _) hawpos
        _ = reserve_out := Nat.mul_div_cancel_left _ hawpos
        _ < 2 ^ 64 := hro
  exact Nat.mod_eq_of_lt hlt

/-- Claim C2: for all inputs on which the widened computation does not fault,
`calculate_raydium_output` with fee denominator 10000 returns exactly
`floor(amountIn * (10000 - feeNumerator) * reserveOut /
(reserveIn * 10000 + amountIn * (10000 - feeNumerator)))`. -/
theorem raydium_output_is_floor_formula
    (amount_in reserve_in reserve_out fee_numerator v : Nat)
    (hro : reserve_out < 2 ^ 64)
    (h : calculate_raydium_output amount_in reserve_in reserve_out fee_numerator 10000 = some v) :
    v = amount_in * (10000 - fee_numerator) * reserve_out /
          (reserve_in * 10000 + amount_in * (10000 - fee_numerator)) :=
  (calculate_raydium_output_spec amount_in reserve_in reserve_out fee_numerator 10000 v hro h).2.2

/-- Witness for C2 at a concrete input: amountIn = 500, reserveIn = 1000,
reserveOut = 4000, feeNumerator = 30. -/
theorem raydium_output_is_floor_formula_witness :
    (1330 : Nat) = 500 * (10000 - 30) * 4000 / (1000 * 10000 + 500 * (10000 - 30)) :=
  raydium_output_is_floor_formula 500 1000 4000 30 1330 (by decide) rfl

/-- Counterexample for claim C3: on amountIn = 10000, reserveIn = 1000000,
reserveOut = 2000000, feeNumerator = 25, the function returns 19752, not the
19851 stated by the specification (the specification's own closed formula
also evaluates to 19752). -/
theorem raydium_scenario_not_19851 :
    calculate_raydium_output 10000 1000000 2000000 25 10000 = some 19752 ∧
      (19752 : Nat) ≠ 19851 := by
  exact ⟨rfl, by decide⟩

/-- Claim C3 (amended): on amountIn = 10000, reserveIn = 1000000,
reserveOut = 2000000, feeNumerator = 25, feeDenominator = 10000, the
swap-output function returns exactly 19752. -/
theorem raydium_scenario_value : calculate_raydium_output 10000 1000000 2000000 25 10000
    = some 19752 := rfl

/-- Claim C7: for fixed amountIn and fee parameters, on non-faulting inputs
the swap output is monotonically non-decreasing in reserveOut and
non-increasing in reserveIn. -/
theorem raydium_output_monotone
    (amount_in reserve_in reserve_in' reserve_out reserve_out' fee_numerator fee_denominator
      v₁ v₂ w₁ w₂ : Nat)
    (hro : reserve_out < 2 ^ 64) (hro' : reserve_out' < 2 ^ 64) :
    (calculate_raydium_output amount_in reserve_in reserve_out fee_numerator fee_denominator
        = some v₁ →
      calculate_raydium_output amount_in reserve_in reserve_out' fee_numerator fee_denominator
        = some v₂ →
      reserve_out ≤ reserve_out' → v₁ ≤ v₂) ∧
    (calculate_raydium_output amount_in reserve_in reserve_out fee_numerator fee_denominator
        = some w₁ →
      calculate_raydium_output amount_in reserve_in' reserve_out fee_numerator fee_denominator
        = some w₂ →
      reserve_in ≤ reserve_in' → w₂ ≤ w₁) := by
  constructor
  · intro h1 h2 hle
    obtain ⟨-, -, hv1⟩ := calculate_raydium_output_spec _ _ _ _ _ _ hro h1
    obtain ⟨-, -, hv2⟩ := calculate_raydium_output_spec _ _ _ _ _ _ hro' h2
    subst hv1; subst hv2
    exact Nat.div_le_div_right (Nat.mul_le_mul_left _ hle)
  · intro h1 h2 hle
    obtain ⟨-, hden, hv1⟩ := calculate_raydium_output_spec _ _ _ _ _ _ hro h1
    obtain ⟨-, -, hv2⟩ := calculate_raydium_output_spec _ _ _ _ _ _ hro h2
    subst hv1; subst hv2
    exact Nat.div_le_div_left
      (Nat.add_le_add_right (Nat.mul_le_mul_right _ hle) _) hden

/-- Witness for C7 at concrete inputs: amountIn = 100, fee 25/10000, reserveOut
2000 → 4000 at reserveIn 1000, and reserveIn 1000 → 3000 at reserveOut 2000. -/
theorem raydium_output_monotone_witness :
    (181 : Nat) ≤ 362 ∧ (64 : Nat) ≤ 181 := by
  have h := raydium_output_monotone 100 1000 3000 2000 4000 25 10000
    181 362 181 64 (by decide) (by decide)
  exact ⟨h.1 rfl rfl (by decide), h.2 rfl rfl (by decide)⟩

/-! ## Lending integrations (`lending_integrations.rs`) -/

/-- `ReserveFees` from the Solend module. -/
structure ReserveFees where
  borrow_fee_wad : Nat
  flash_loan_fee_wad : Nat
  host_fee_percentage : Nat
deriving DecidableEq

/-- `ReserveConfig` from the Solend module (all fields u8 in the source). -/
structure ReserveConfig where
  optimal_utilization_rate : Nat
  loan_to_value_ratio : Nat
  liquidation_bonus : Nat
  liquidation_threshold : Nat
  min_borrow_rate : Nat
  optimal_borrow_rate : Nat
  max_borrow_rate : Nat
  fees : ReserveFees
deriving DecidableEq

/-- `ReserveLiquidity` from the Solend module. -/
structure ReserveLiquidity where
  mint_pubkey : Nat
  mint_decimals : Nat
  supply_pubkey : Nat
  fee_receiver : Nat
  oracle_pubkey : Nat
  available_amount : Nat
  borrowed_amount_wads : Nat
  cumulative_borrow_rate_wads : Nat
  market_price : Nat
deriving DecidableEq

/-- `ReserveCollateral` from the Solend module. -/
structure ReserveCollateral where
  mint_pubkey : Nat
  mint_total_supply : Nat
  supply_pubkey : Nat
deriving DecidableEq

/-- `SolendReserve` from the Solend module. -/
structure SolendReserve where
  version : Nat
  last_update : Nat
  lending_market : Nat
  liquidity : ReserveLiquidity
  collateral : ReserveCollateral
  config : ReserveConfig
deriving DecidableEq

/-- `PortLiquidity` from the Port Finance module. -/
structure PortLiquidity where
  mint_pubkey : Nat
  supply_pubkey : Nat
  fee_receiver : Nat
  oracle_pubkey : Nat
  available_amount : Nat
  borrowed_amount : Nat
  cumulative_borrow_rate : Nat
  market_price : Nat
deriving DecidableEq

/-- `PortCollateral` from the Port Finance module. -/
structure PortCollateral where
  mint_pubkey : Nat
  supply_pubkey : Nat
  total_supply : Nat
deriving DecidableEq

/-- `PortConfig` from the Port Finance module (all fields u8). -/
structure PortConfig where
  optimal_utilization_rate : Nat
  max_borrow_rate : Nat
  loan_to_value_ratio : Nat
  liquidation_bonus : Nat
  liquidation_threshold : Nat
  min_borrow_rate : Nat
  optimal_borrow_rate : Nat
  borrow_fee_rate : Nat
deriving DecidableEq

/-- `PortReserve` from the Port Finance module. -/
structure PortReserve where
  is_initialized : Bool
  lending_market : Nat
  liquidity : PortLiquidity
  collateral : PortCollateral
  config : PortConfig
  last_update : Nat
deriving DecidableEq

/-- The utilization ratio of `calculate_lending_apy`:
`(borrowed_amount_wads * 10000) / (available_amount + borrowed_amount_wads)`
in u128, with 0 when there is no available liquidity. -/
def solend_utilization (r : SolendReserve) : Option Nat :=
  if r.liquidity.available_amount = 0 then some 0
  else
    (checked_mul_u128 r.liquidity.borrowed_amount_wads 10000).bind fun num =>
    (checked_add_u128 r.liquidity.available_amount r.liquidity.borrowed_amount_wads).bind fun tot =>
    checked_div_nat num tot

/-- The piecewise-linear borrow-rate curve shared (textually duplicated) by
the Solend and Port APY calculations: linear from `base_rate` to
`optimal_rate` on `[0, optimal_util]`, then linear from `optimal_rate` to
`max_rate` on `[optimal_util, 10000]`. -/
def borrow_rate_curve (u base_rate optimal_rate max_rate optimal_util : Nat) : Option Nat :=
  if u ≤ optimal_util then
    (checked_sub_nat optimal_rate base_rate).bind fun d =>
    (checked_mul_u128 d u).bind fun t =>
    (checked_div_nat t optimal_util).bind fun q =>
    checked_add_u128 base_rate q
  else
    (checked_sub_nat max_rate optimal_rate).bind fun d =>
    (checked_sub_nat u optimal_util).bind fun du =>
    (checked_mul_u128 d du).bind fun t =>
    (checked_sub_nat 10000 optimal_util).bind fun dd =>
    (checked_div_nat t dd).bind fun q =>
    checked_add_u128 optimal_rate q

/-- The borrow APY computed inside `calculate_lending_apy` (the source binds
it, confusingly, to a variable named `lending_apy` before scaling). -/
def solend_borrow_apy (r : SolendReserve) : Option Nat :=
  (solend_utilization r).bind fun u =>
  borrow_rate_curve u r.config.min_borrow_rate r.config.optimal_borrow_rate
    r.config.max_borrow_rate (r.config.optimal_utilization_rate * 100)

/-- `calculate_lending_apy` from the Solend module: 70% of the borrow APY,
cast to u16. -/
def calculate_lending_apy (r : SolendReserve) : Option Nat :=
  (solend_borrow_apy r).bind fun borrow =>
  (checked_mul_u128 borrow 70).bind fun t =>
  (checked_div_nat t 100).map fun q => q % 2 ^ 16

/-- The utilization ratio of `calculate_port_apy`: total liquidity is the
u64 sum `available + borrowed`, utilization `(borrowed * 10000) / total`
in u128, 0 when the total is 0. -/
def port_utilization (r : PortReserve) : Option Nat :=
  (checked_add_u64 r.liquidity.available_amount r.liquidity.borrowed_amount).bind fun total =>
  if total = 0 then some 0
  else
    (checked_mul_u128 r.liquidity.borrowed_amount 10000).bind fun num =>
    checked_div_nat num total

/-- The borrow APY computed inside `calculate_port_apy`. -/
def port_borrow_apy (r : PortReserve) : Option Nat :=
  (port_utilization r).bind fun u =>
  borrow_rate_curve u r.config.min_borrow_rate r.config.optimal_borrow_rate
    r.config.max_borrow_rate (r.config.optimal_utilization_rate * 100)

/-- `calculate_port_apy` from the Port Finance module: 75% of the borrow
APY, cast to u16. -/
def calculate_port_apy (r : PortReserve) : Option Nat :=
  (port_borrow_apy r).bind fun borrow =>
  (checked_mul_u128 borrow 75).bind fun t =>
  (checked_div_nat t 100).map fun q => q % 2 ^ 16

/-- A non-faulting Solend utilization ratio never exceeds 10000 bps. -/
theorem solend_utilization_le (r : SolendReserve) (u : Nat)
    (h : solend_utilization r = some u) : u ≤ 10000 := by
  unfold solend_utilization at h
  split at h
  · simp only [Option.some.injEq] at h
    omega
  · simp only [checked_mul_u128, checked_add_u128, checked_div_nat, Option.bind_eq_some,
      Option.ite_none_right_eq_some, Option.some.injEq] at h
    obtain ⟨num, ⟨-, hnum⟩, tot, ⟨-, htot⟩, hpos, hu⟩ := h
    subst hnum htot hu
    calc r.liquidity.borrowed_amount_wads * 10000 /
          (r.liquidity.available_amount + r.liquidity.borrowed_amount_wads)
        ≤ (r.liquidity.available_amount + r.liquidity.borrowed_amount_wads) * 10000 /
          (r.liquidity.available_amount + r.liquidity.borrowed_amount_wads) :=
          Nat.div_le_div_right (Nat.mul_le_mul_right _ (Nat.le_add_left _ _))
      _ = 10000 := Nat.mul_div_cancel_left _ hpos

/-- A non-faulting Port utilization ratio never exceeds 10000 bps. -/
theorem port_utilization_le (r : PortReserve) (u : Nat)
    (h : port_utilization r = some u) : u ≤ 10000 := by
  unfold port_utilization at h
  simp only [checked_add_u64, checked_mul_u128, checked_div_nat, Option.bind_eq_some,
    Option.ite_none_right_eq_some, Option.some.injEq] at h
  obtain ⟨total, ⟨-, htotal⟩, h⟩ := h
  split at h
  · simp only [Option.some.injEq] at h
    omega
  · simp only [Option.bind_eq_some, Option.ite_none_right_eq_some, Option.some.injEq] at h
    obtain ⟨num, ⟨-, hnum⟩, hpos, hu⟩ := h
    subst htotal hnum hu
    calc r.liquidity.borrowed_amount * 10000 /
          (r.liquidity.available_amount + r.liquidity.borrowed_amount)
        ≤ (r.liquidity.available_amount + r.liquidity.borrowed_amount) * 10000 /
          (r.liquidity.available_amount + r.liquidity.borrowed_amount) :=
          Nat.div_le_div_right (Nat.mul_le_mul_right _ (Nat.le_add_left _ _))
      _ = 10000 := Nat.mul_div_cancel_left _ hpos

/-- A non-faulting borrow rate is bounded by `max optimal_rate max_rate`
whenever utilization stays within 10000 bps. -/
theorem borrow_rate_curve_le (u base_rate optimal_rate max_rate optimal_util b : Nat)
    (hu : u ≤ 10000) (h : borrow_rate_curve u base_rate optimal_rate max_rate optimal_util
      = some b) :
    b ≤ optimal_rate ∨ b ≤ max_rate := by
  unfold borrow_rate_curve at h
  split at h
  next hle =>
    left
    simp only [checked_sub_nat, checked_mul_u128, checked_div_nat, checked_add_u128,
      Option.bind_eq_some, Option.ite_none_right_eq_some, Option.some.injEq] at h
    obtain ⟨d, ⟨hd1, hd2⟩, t, ⟨-, ht⟩, q, ⟨hq0, hq⟩, -, hb⟩ := h
    subst hd2 ht hq hb
    have hq : (optimal_rate - base_rate) * u / optimal_util ≤ optimal_rate - base_rate := by
      calc (optimal_rate - base_rate) * u / optimal_util
          ≤ (optimal_rate - base_rate) * optimal_util / optimal_util :=
            Nat.div_le_div_right (Nat.mul_le_mul_left _ hle)
        _ = optimal_rate - base_rate := Nat.mul_div_cancel _ hq0
    omega
  next hgt =>
    right
    simp only [checked_sub_nat, checked_mul_u128, checked_div_nat, checked_add_u128,
      Option.bind_eq_some, Option.ite_none_right_eq_some, Option.some.injEq] at h
    obtain ⟨d, ⟨hd1, hd2⟩, du, ⟨hdu1, hdu2⟩, t, ⟨-, ht⟩, dd, ⟨hdd1, hdd2⟩, q, ⟨hq0, hq⟩, -, hb⟩ := h
    subst hd2 hdu2 ht hdd2 hq hb
    have hq : (max_rate - optimal_rate) * (u - optimal_util) / (10000 - optimal_util)
        ≤ max_rate - optimal_rate := by
      calc (max_rate - optimal_rate) * (u - optimal_util) / (10000 - optimal_util)
          ≤ (max_rate - optimal_rate) * (10000 - optimal_util) / (10000 - optimal_util) :=
            Nat.div_le_div_right (Nat.mul_le_mul_left _ (by omega))
        _ = max_rate - optimal_rate := Nat.mul_div_cancel _ hq0
    omega

/-- Claim C6 (amended): for every reserve snapshot accepted by the
calculation, the lending APY (70% of borrow APY for Solend, 75% for Port
Finance) is at most the computed borrow APY, and strictly below it whenever
the borrow APY is positive. (The original strict claim fails when the borrow
APY is 0.) -/
theorem lending_apy_below_borrow_apy
    (rs : SolendReserve) (rp : PortReserve) (bs ls bp lp : Nat)
    (hs1 : rs.config.optimal_borrow_rate < 256) (hs2 : rs.config.max_borrow_rate < 256)
    (hp1 : rp.config.optimal_borrow_rate < 256) (hp2 : rp.config.max_borrow_rate < 256)
    (hbs : solend_borrow_apy rs = some bs) (hls : calculate_lending_apy rs = some ls)
    (hbp : port_borrow_apy rp = some bp) (hlp : calculate_port_apy rp = some lp) :
    (ls ≤ bs ∧ (0 < bs → ls < bs)) ∧ (lp ≤ bp ∧ (0 < bp → lp < bp)) := by
  have hbs_bound : bs < 256 := by
    unfold solend_borrow_apy at hbs
    simp only [Option.bind_eq_some] at hbs
    obtain ⟨u, hu, hcurve⟩ := hbs
    rcases borrow_rate_curve_le u _ _ _ _ bs (solend_utilization_le rs u hu) hcurve with h | h
      <;> omega
  have hbp_bound : bp < 256 := by
    unfold port_borrow_apy at hbp
    simp only [Option.bind_eq_some] at hbp
    obtain ⟨u, hu, hcurve⟩ := hbp
    rcases borrow_rate_curve_le u _ _ _ _ bp (port_utilization_le rp u hu) hcurve with h | h
      <;> omega
  constructor
  · unfold calculate_lending_apy at hls
    rw [hbs] at hls
    simp only [Option.some_bind, checked_mul_u128, checked_div_nat, Option.bind_eq_some,
      Option.map_eq_some',
      Option.ite_none_right_eq_some, Option.some.injEq] at hls
    obtain ⟨t, ⟨-, ht⟩, q, ⟨-, hq⟩, hl⟩ := hls
    subst ht hq
    have hq70 : bs * 70 / 100 ≤ bs := by
      calc bs * 70 / 100 ≤ bs * 100 / 100 :=
            Nat.div_le_div_right (Nat.mul_le_mul_left _ (by omega))
        _ = bs := Nat.mul_div_cancel _ (by omega)
    have hmod : ls = bs * 70 / 100 := by
      rw [← hl]
      exact Nat.mod_eq_of_lt (by omega)
    subst hmod
    refine ⟨hq70, fun hbpos => ?_⟩
    exact Nat.div_lt_of_lt_mul (by omega)
  · unfold calculate_port_apy at hlp
    rw [hbp] at hlp
    simp only [Option.some_bind, checked_mul_u128, checked_div_nat, Option.bind_eq_some,
      Option.map_eq_some',
      Option.ite_none_right_eq_some, Option.some.injEq] at hlp
    obtain ⟨t, ⟨-, ht⟩, q, ⟨-, hq⟩, hl⟩ := hlp
    subst ht hq
    have hq75 : bp * 75 / 100 ≤ bp := by
      calc bp * 75 / 100 ≤ bp * 100 / 100 :=
            Nat.div_le_div_right (Nat.mul_le_mul_left _ (by omega))
        _ = bp := Nat.mul_div_cancel _ (by omega)
    have hmod : lp = bp * 75 / 100 := by
      rw [← hl]
      exact Nat.mod_eq_of_lt (by omega)
    subst hmod
    refine ⟨hq75, fun hbpos => ?_⟩
    exact Nat.div_lt_of_lt_mul (by omega)

/-- A Solend reserve snapshot at 50% utilization with rates 2/10/50 and
optimal utilization 80%; its borrow APY is 7 and its lending APY 4. -/
def sampleSolendReserve : SolendReserve :=
  { version := 1
    last_update := 0
    lending_market := 5
    liquidity :=
      { mint_pubkey := 3, mint_decimals := 6, supply_pubkey := 4, fee_receiver := 5
        oracle_pubkey := 6, available_amount := 100, borrowed_amount_wads := 100
        cumulative_borrow_rate_wads := 0, market_price := 1 }
    collateral := { mint_pubkey := 7, mint_total_supply := 0, supply_pubkey := 8 }
    config :=
      { optimal_utilization_rate := 80, loan_to_value_ratio := 50, liquidation_bonus := 5
        liquidation_threshold := 55, min_borrow_rate := 2, optimal_borrow_rate := 10
        max_borrow_rate := 50
        fees := { borrow_fee_wad := 0, flash_loan_fee_wad := 0, host_fee_percentage := 0 } } }

/-- A Port reserve snapshot at 50% utilization with rates 2/10/50 and
optimal utilization 80%; its borrow APY is 7 and its lending APY 5. -/
def samplePortReserve : PortReserve :=
  { is_initialized := true
    lending_market := 5
    liquidity :=
      { mint_pubkey := 3, supply_pubkey := 4, fee_receiver := 5, oracle_pubkey := 6
        available_amount := 100, borrowed_amount := 100
        cumulative_borrow_rate := 0, market_price := 1 }
    collateral := { mint_pubkey := 7, supply_pubkey := 8, total_supply := 0 }
    config :=
      { optimal_utilization_rate := 80, max_borrow_rate := 50, loan_to_value_ratio := 50
        liquidation_bonus := 5, liquidation_threshold := 55, min_borrow_rate := 2
        optimal_borrow_rate := 10, borrow_fee_rate := 0 }
    last_update := 0 }

/-- Witness for C6 at the sample reserves: Solend lending APY 4 vs borrow 7,
Port lending APY 5 vs borrow 7. -/
theorem lending_apy_below_borrow_apy_witness :
    (((4 : Nat) ≤ 7 ∧ (0 < 7 → (4 : Nat) < 7)) ∧ ((5 : Nat) ≤ 7 ∧ (0 < 7 → (5 : Nat) < 7))) :=
  lending_apy_below_borrow_apy sampleSolendReserve samplePortReserve 7 4 7 5
    (by decide) (by decide) (by decide) (by decide) rfl rfl rfl rfl

/-- A Solend reserve with zero borrows and zero minimum rate: its borrow APY
is 0 and its lending APY is also 0. -/
def zeroRateSolendReserve : SolendReserve :=
  { version := 1
    last_update := 0
    lending_market := 5
    liquidity :=
      { mint_pubkey := 3, mint_decimals := 6, supply_pubkey := 4, fee_receiver := 5
        oracle_pubkey := 6, available_amount := 100, borrowed_amount_wads := 0
        cumulative_borrow_rate_wads := 0, market_price := 1 }
    collateral := { mint_pubkey := 7, mint_total_supply := 0, supply_pubkey := 8 }
    config :=
      { optimal_utilization_rate := 80, loan_to_value_ratio := 50, liquidation_bonus := 5
        liquidation_threshold := 55, min_borrow_rate := 0, optimal_borrow_rate := 10
        max_borrow_rate := 50
        fees := { borrow_fee_wad := 0, flash_loan_fee_wad := 0, host_fee_percentage := 0 } } }

/-- Counterexample for claim C6: the lending APY is not always strictly
below the borrow APY — on a reserve with zero utilization and zero minimum
borrow rate both are 0. -/
theorem lending_apy_not_strictly_below :
    ¬ (∀ (r : SolendReserve) (b l : Nat),
        solend_borrow_apy r = some b → calculate_lending_apy r = some l → l < b) :=
  fun h => absurd (h zeroRateSolendReserve 0 0 rfl rfl) (by decide)

/-! ## Main program data model (`contracts/src/lib.rs`).

Accounts are embedded as plain records (the Anchor `bump` plumbing fields are
PDA bookkeeping and are omitted). Anchor `#[account(constraint = ...)]` and
PDA-seed checks run before an instruction body; they appear as the leading
guards of each instruction, failing with `AccountConstraintViolated`.
Instructions return `Except (EngineError × EngineState) EngineState`: an
error carries the state at the point of failure (the surrounding runtime
rolls a failed transaction back wholesale; the ledger wrapper below does
exactly that). -/

/-- `PROTOCOL_FEE_BPS` (0.3%). -/
def PROTOCOL_FEE_BPS : Nat := 30

/-- `MAX_INTENTS_PER_USER`. -/
def MAX_INTENTS_PER_USER : Nat := 50

/-- `INTENT_EXPIRY_SECONDS` (7 days). -/
def INTENT_EXPIRY_SECONDS : Int := 86400 * 7

/-- `MIN_RUGPROOF_SCORE`. -/
def MIN_RUGPROOF_SCORE : Nat := 70

/-- `SwapProtocol` from `integrations.rs`. -/
inductive SwapProtocol
  | Jupiter
  | Raydium
  | Orca
deriving DecidableEq

/-- `LendingProtocol` from `lending_integrations.rs`. -/
inductive LendingProtocol
  | Solend
  | PortFinance
  | TulipProtocol
  | Francium
deriving DecidableEq

/-- `IntentType` from the main program. -/
inductive IntentType
  | Swap
  | Lend
  | Buy
deriving DecidableEq

/-- `IntentStatus` from the main program. `Expired` is declared but never
stored by any instruction. -/
inductive IntentStatus
  | Pending
  | Executed
  | Cancelled
  | Expired
deriving DecidableEq

/-- `ProtocolState` account. -/
structure ProtocolState where
  authority : Nat
  treasury_authority : Nat
  protocol_fee_bps : Nat
  total_fees_collected : Nat
  total_intents_created : Nat
  total_intents_executed : Nat
  is_paused : Bool
deriving DecidableEq

/-- `UserAccount` account (`active_intents` is u8 in the source). -/
structure UserAccount where
  authority : Nat
  active_intents : Nat
  total_intents_created : Nat
  total_volume : Nat
  rugproof_enabled : Bool
deriving DecidableEq

/-- `IntentAccount` account. -/
structure IntentAccount where
  authority : Nat
  intent_type : IntentType
  status : IntentStatus
  from_mint : Nat
  to_mint : Nat
  amount : Nat
  protocol_fee : Nat
  max_slippage : Nat
  min_apy : Option Nat
  target_price : Option Nat
  max_price_impact : Option Nat
  execution_price : Option Nat
  execution_apy : Option Nat
  rugproof_enabled : Bool
  selected_swap_protocol : SwapProtocol
  selected_lending_protocol : Option LendingProtocol
  created_at : Int
  expires_at : Int
  executed_at : Option Int
  cancelled_at : Option Int
deriving DecidableEq

/-- `IntentError` from the main program, extended with the three failure
modes that in the source are not `IntentError` values: an Anchor account
constraint violation, an arithmetic panic (`checked_*().unwrap()` /
overflow), and an SPL token transfer failure. -/
inductive EngineError
  | TooManyActiveIntents
  | ProtocolPaused
  | InvalidAmount
  | SlippageTooHigh
  | RugproofCheckFailed
  | IntentNotPending
  | IntentExpired
  | SlippageExceeded
  | InvalidAPY
  | APYTooLow
  | Unauthorized
  | WrongProtocol
  | AccountConstraintViolated
  | ArithmeticFault
  | TokenTransferFailed
deriving DecidableEq

/-- `SwapIntentParams`. -/
structure SwapIntentParams where
  from_mint : Nat
  to_mint : Nat
  amount : Nat
  max_slippage : Nat
  rugproof_enabled : Bool
deriving DecidableEq

/-- `LendIntentParams`. -/
structure LendIntentParams where
  mint : Nat
  amount : Nat
  min_apy : Nat
deriving DecidableEq

/-- `BuyIntentParams`. -/
structure BuyIntentParams where
  mint : Nat
  usdc_mint : Nat
  usdc_amount : Nat
  target_price : Option Nat
  max_price_impact : Nat
  rugproof_check : Bool
deriving DecidableEq

/-- `SwapInfo` from the Jupiter module. -/
structure SwapInfo where
  amm_key : Nat
  label : String
  input_mint : Nat
  output_mint : Nat
  in_amount : Nat
  out_amount : Nat
  fee_amount : Nat
  fee_mint : Nat
deriving DecidableEq

/-- `RoutePlanStep` from the Jupiter module. -/
structure RoutePlanStep where
  swap_info : SwapInfo
  percent : Nat
deriving DecidableEq

/-- `JupiterSwapData` from the Jupiter module. -/
structure JupiterSwapData where
  route_plan : List RoutePlanStep
  in_amount : Nat
  quoted_out_amount : Nat
  slippage_bps : Nat
  platform_fee_bps : Nat
deriving DecidableEq

/-- `JupiterSwapParams` from the Jupiter module. -/
structure JupiterSwapParams where
  from_mint : Nat
  to_mint : Nat
  amount : Nat
  slippage_bps : Nat
  platform_fee_bps : Nat
deriving DecidableEq

/-- `RaydiumSwapParams` from the Raydium module. -/
structure RaydiumSwapParams where
  pool_id : Nat
  from_mint : Nat
  to_mint : Nat
  amount_in : Nat
  minimum_amount_out : Nat
deriving DecidableEq

/-- `RaydiumPoolInfo` from the Raydium module. -/
structure RaydiumPoolInfo where
  status : Nat
  nonce : Nat
  order_num : Nat
  depth : Nat
  coin_decimals : Nat
  pc_decimals : Nat
  state : Nat
  reset_flag : Nat
  min_size : Nat
  vol_max_cut_ratio : Nat
  amount_wave_ratio : Nat
  coin_lot_size : Nat
  pc_lot_size : Nat
  min_price_multiplier : Nat
  max_price_multiplier : Nat
  sys_decimal_value : Nat
  pool_coin_token_account : Nat
  pool_pc_token_account : Nat
  coin_mint_address : Nat
  pc_mint_address : Nat
  lp_mint_address : Nat
  amm_open_orders : Nat
  serum_market : Nat
  serum_program_id : Nat
  amm_target_orders : Nat
  pool_withdraw_queue : Nat
  pool_temp_lp_token_account : Nat
  amm_owner : Nat
  pool_coin_amount : Nat
  pool_pc_amount : Nat
deriving DecidableEq

/-- `SolendLendParams`. -/
structure SolendLendParams where
  reserve : Nat
  lending_market : Nat
  amount : Nat
  expected_apy : Nat
deriving DecidableEq

/-- `PortLendParams`. -/
structure PortLendParams where
  reserve : Nat
  staking_pool : Nat
  amount : Nat
  expected_apy : Nat
deriving DecidableEq

/-- `ProtocolRouter::is_major_pair`: SOL/USDC/USDT in any ordering, with the
mock mints `new_from_array([0; 32])`, `([1; 32])`, `([2; 32])`. -/
def is_major_pair (from_mint to_mint : Nat) : Bool :=
  let sol_mint := repeated_byte_key 0
  let usdc_mint := repeated_byte_key 1
  let usdt_mint := repeated_byte_key 2
  (from_mint == sol_mint && to_mint == usdc_mint) ||
  (from_mint == usdc_mint && to_mint == sol_mint) ||
  (from_mint == sol_mint && to_mint == usdt_mint) ||
  (from_mint == usdt_mint && to_mint == sol_mint) ||
  (from_mint == usdc_mint && to_mint == usdt_mint) ||
  (from_mint == usdt_mint && to_mint == usdc_mint)

/-- `ProtocolRouter::choose_best_protocol`. -/
def choose_best_protocol (from_mint to_mint amount : Nat) : SwapProtocol :=
  if 1000 * 1000000 < amount then .Jupiter
  else if is_major_pair from_mint to_mint then .Raydium
  else .Jupiter

/-- `LendingRouter::choose_best_lending_protocol`. -/
def choose_best_lending_protocol (_mint amount : Nat) : LendingProtocol :=
  if 10000 * 1000000 < amount then .Solend else .PortFinance

/-- `perform_rugproof_check`: a score derived from the first byte of the
mint key; never fails. -/
def perform_rugproof_check (mint : Nat) : Nat :=
  if mint % 256 < 50 then 95
  else if mint % 256 < 100 then 85
  else 75

/-- The accounts one settlement instruction touches: the protocol singleton,
the caller's user account, the intent being settled, and the four token
balances involved (source, destination, treasury fee account, and the lending
venue's receiving account). -/
structure EngineState where
  protocol : ProtocolState
  user : UserAccount
  intent : IntentAccount
  user_source_balance : Nat
  user_destination_balance : Nat
  treasury_balance : Nat
  venue_balance : Nat
deriving DecidableEq

/-- `jupiter::execute_jupiter_swap`: validates the route quote against the
requested parameters and returns the pre-quoted output. (Defined in the
source but not called by any instruction.) -/
def execute_jupiter_swap (swap_params : JupiterSwapParams)
    (jupiter_swap_data : JupiterSwapData) : Except EngineError Nat :=
  if jupiter_swap_data.in_amount = swap_params.amount then
    if jupiter_swap_data.slippage_bps = swap_params.slippage_bps then
      match (checked_mul_u128 swap_params.amount swap_params.platform_fee_bps).bind
          fun t => checked_div_nat t 10000 with
      | none => .error .ArithmeticFault
      | some _our_platform_fee => .ok jupiter_swap_data.quoted_out_amount
    else .error .SlippageExceeded
  else .error .InvalidAmount

/-- `jupiter::execute_jupiter_swap_simple`: ignores the route data and
simulates the swap at a fixed 95% rate, `amount * 950 / 1000` as u64. -/
def execute_jupiter_swap_simple (params : JupiterSwapParams)
    (_swap_data : JupiterSwapData) : Except EngineError Nat :=
  match (checked_mul_u128 params.amount 950).bind fun t => checked_div_nat t 1000 with
  | none => .error .ArithmeticFault
  | some q => .ok (q % 2 ^ 64)

/-- `raydium::execute_raydium_swap_simple`: recomputes the constant-product
output (always with the coin reserve as input side and the pc reserve as
output side) and enforces `minimum_amount_out`. -/
def execute_raydium_swap_simple (params : RaydiumSwapParams)
    (pool_info : RaydiumPoolInfo) : Except EngineError Nat :=
  match calculate_raydium_output params.amount_in pool_info.pool_coin_amount
      pool_info.pool_pc_amount 25 10000 with
  | none => .error .ArithmeticFault
  | some output_amount =>
    if params.minimum_amount_out ≤ output_amount then .ok output_amount
    else .error .SlippageExceeded

/-- `solend::execute_solend_lend`: validates the reserve's mint, computes
the current lending APY and enforces the intent's minimum yield. -/
def execute_solend_lend (intent_account : IntentAccount) (_params : SolendLendParams)
    (reserve_data : SolendReserve) : Except EngineError Nat :=
  if reserve_data.liquidity.mint_pubkey = intent_account.from_mint then
    match calculate_lending_apy reserve_data with
    | none => .error .ArithmeticFault
    | some current_apy =>
      if intent_account.min_apy.getD 0 ≤ current_apy then .ok current_apy
      else .error .APYTooLow
  else .error .InvalidAmount

/-- `port_finance::execute_port_lend`: the Port Finance analogue. -/
def execute_port_lend (intent_account : IntentAccount) (_params : PortLendParams)
    (reserve_data : PortReserve) : Except EngineError Nat :=
  if reserve_data.liquidity.mint_pubkey = intent_account.from_mint then
    match calculate_port_apy reserve_data with
    | none => .error .ArithmeticFault
    | some current_apy =>
      if intent_account.min_apy.getD 0 ≤ current_apy then .ok current_apy
      else .error .APYTooLow
  else .error .InvalidAmount

/-- `execute_swap_intent_jupiter`: guards, fee transfer to treasury, the
simplified Jupiter call, then the state transition to `Executed` with the
counter updates (`active_intents -= 1` on u8 faults at 0; u64 counter
additions are checked). -/
def execute_swap_intent_jupiter (st : EngineState) (user : Nat) (now : Int)
    (jupiter_swap_data : JupiterSwapData) : Except (EngineError × EngineState) EngineState :=
  if st.intent.authority = user then
  if st.user.authority = user then
  if st.intent.status = .Pending then
  if now < st.intent.expires_at then
  if st.intent.selected_swap_protocol = .Jupiter then
    match checked_sub_nat st.intent.amount st.intent.protocol_fee with
    | none => .error (.ArithmeticFault, st)
    | some net_amount =>
    match spl_transfer st.user_source_balance st.treasury_balance st.intent.protocol_fee with
    | none => .error (.TokenTransferFailed, st)
    | some (src, tre) =>
    let st1 : EngineState := { st with user_source_balance := src, treasury_balance := tre }
    let swap_params : JupiterSwapParams :=
      { from_mint := st.intent.from_mint, to_mint := st.intent.to_mint
        amount := net_amount, slippage_bps := st.intent.max_slippage, platform_fee_bps := 0 }
    match execute_jupiter_swap_simple swap_params jupiter_swap_data with
    | .error e => .error (e, st1)
    | .ok estimated_output =>
    match st1.user.active_intents,
        checked_add_u64 st1.user.total_volume st.intent.amount,
        checked_add_u64 st1.protocol.total_intents_executed 1,
        checked_add_u64 st1.protocol.total_fees_collected st.intent.protocol_fee with
    | n + 1, some vol, some texec, some fees =>
      .ok { st1 with
        intent := { st1.intent with
          status := .Executed, executed_at := some now
          execution_price := some estimated_output }
        user := { st1.user with active_intents := n, total_volume := vol }
        protocol := { st1.protocol with
          total_intents_executed := texec, total_fees_collected := fees } }
    | _, _, _, _ => .error (.ArithmeticFault, st1)
  else .error (.WrongProtocol, st)
  else .error (.IntentExpired, st)
  else .error (.IntentNotPending, st)
  else .error (.AccountConstraintViolated, st)
  else .error (.AccountConstraintViolated, st)

/-- `execute_swap_intent_raydium`: guards, fee transfer, direction-aware
base-output pricing, slippage bound `base * (10000 - maxSlippage) / 10000`,
the simplified Raydium call, then the `Executed` transition. -/
def execute_swap_intent_raydium (st : EngineState) (user : Nat) (now : Int)
    (pool_info : RaydiumPoolInfo) : Except (EngineError × EngineState) EngineState :=
  if st.intent.authority = user then
  if st.user.authority = user then
  if st.intent.status = .Pending then
  if now < st.intent.expires_at then
  if st.intent.selected_swap_protocol = .Raydium then
    match checked_sub_nat st.intent.amount st.intent.protocol_fee with
    | none => .error (.ArithmeticFault, st)
    | some net_amount =>
    match spl_transfer st.user_source_balance st.treasury_balance st.intent.protocol_fee with
    | none => .error (.TokenTransferFailed, st)
    | some (src, tre) =>
    let st1 : EngineState := { st with user_source_balance := src, treasury_balance := tre }
    match calculate_raydium_output net_amount
        (if st.intent.from_mint = pool_info.coin_mint_address then pool_info.pool_coin_amount
          else pool_info.pool_pc_amount)
        (if st.intent.from_mint = pool_info.coin_mint_address then pool_info.pool_pc_amount
          else pool_info.pool_coin_amount)
        25 10000 with
    | none => .error (.ArithmeticFault, st1)
    | some base_output =>
    match checked_sub_nat 10000 st.intent.max_slippage with
    | none => .error (.ArithmeticFault, st1)
    | some slippage_multiplier =>
    match (checked_mul_u128 base_output slippage_multiplier).bind
        fun t => checked_div_nat t 10000 with
    | none => .error (.ArithmeticFault, st1)
    | some m =>
    let swap_params : RaydiumSwapParams :=
      { pool_id := 0, from_mint := st.intent.from_mint, to_mint := st.intent.to_mint
        amount_in := net_amount, minimum_amount_out := m % 2 ^ 64 }
    match execute_raydium_swap_simple swap_params pool_info with
    | .error e => .error (e, st1)
    | .ok estimated_output =>
    match st1.user.active_intents,
        checked_add_u64 st1.user.total_volume st.intent.amount,
        checked_add_u64 st1.protocol.total_intents_executed 1,
        checked_add_u64 st1.protocol.total_fees_collected st.intent.protocol_fee with
    | n + 1, some vol, some texec, some fees =>
      .ok { st1 with
        intent := { st1.intent with
          status := .Executed, executed_at := some now
          execution_price := some estimated_output }
        user := { st1.user with active_intents := n, total_volume := vol }
        protocol := { st1.protocol with
          total_intents_executed := texec, total_fees_collected := fees } }
    | _, _, _, _ => .error (.ArithmeticFault, st1)
  else .error (.WrongProtocol, st)
  else .error (.IntentExpired, st)
  else .error (.IntentNotPending, st)
  else .error (.AccountConstraintViolated, st)
  else .error (.AccountConstraintViolated, st)

/-- `execute_lend_intent_solend`: guards, fee transfer, the Solend yield
validation, the deposit transfer to the reserve, then the `Executed`
transition. (The `user_account` in this instruction's account list carries
no PDA constraint in the source, so no signer/user-account guard appears.) -/
def execute_lend_intent_solend (st : EngineState) (user : Nat) (now : Int)
    (reserve_data : SolendReserve) : Except (EngineError × EngineState) EngineState :=
  if st.intent.authority = user then
  if st.intent.status = .Pending then
  if now < st.intent.expires_at then
  if st.intent.selected_lending_protocol = some .Solend then
    match checked_sub_nat st.intent.amount st.intent.protocol_fee with
    | none => .error (.ArithmeticFault, st)
    | some net_amount =>
    match spl_transfer st.user_source_balance st.treasury_balance st.intent.protocol_fee with
    | none => .error (.TokenTransferFailed, st)
    | some (src, tre) =>
    let st1 : EngineState := { st with user_source_balance := src, treasury_balance := tre }
    let lend_params : SolendLendParams :=
      { reserve := 0, lending_market := 0, amount := net_amount
        expected_apy := st.intent.min_apy.getD 0 }
    match execute_solend_lend st.intent lend_params reserve_data with
    | .error e => .error (e, st1)
    | .ok actual_apy =>
    match spl_transfer st1.user_source_balance st1.venue_balance net_amount with
    | none => .error (.TokenTransferFailed, st1)
    | some (src2, ven2) =>
    let st2 : EngineState := { st1 with user_source_balance := src2, venue_balance := ven2 }
    match st2.user.active_intents,
        checked_add_u64 st2.user.total_volume st.intent.amount,
        checked_add_u64 st2.protocol.total_intents_executed 1,
        checked_add_u64 st2.protocol.total_fees_collected st.intent.protocol_fee with
    | n + 1, some vol, some texec, some fees =>
      .ok { st2 with
        intent := { st2.intent with
          status := .Executed, executed_at := some now, execution_apy := some actual_apy }
        user := { st2.user with active_intents := n, total_volume := vol }
        protocol := { st2.protocol with
          total_intents_executed := texec, total_fees_collected := fees } }
    | _, _, _, _ => .error (.ArithmeticFault, st2)
  else .error (.WrongProtocol, st)
  else .error (.IntentExpired, st)
  else .error (.IntentNotPending, st)
  else .error (.AccountConstraintViolated, st)

/-- `execute_lend_intent_port`: the Port Finance analogue of the Solend
execution path. -/
def execute_lend_intent_port (st : EngineState) (user : Nat) (now : Int)
    (reserve_data : PortReserve) : Except (EngineError × EngineState) EngineState :=
  if st.intent.authority = user then
  if st.intent.status = .Pending then
  if now < st.intent.expires_at then
  if st.intent.selected_lending_protocol = some .PortFinance then
    match checked_sub_nat st.intent.amount st.intent.protocol_fee with
    | none => .error (.ArithmeticFault, st)
    | some net_amount =>
    match spl_transfer st.user_source_balance st.treasury_balance st.intent.protocol_fee with
    | none => .error (.TokenTransferFailed, st)
    | some (src, tre) =>
    let st1 : EngineState := { st with user_source_balance := src, treasury_balance := tre }
    let lend_params : PortLendParams :=
      { reserve := 0, staking_pool := 0, amount := net_amount
        expected_apy := st.intent.min_apy.getD 0 }
    match execute_port_lend st.intent lend_params reserve_data with
    | .error e => .error (e, st1)
    | .ok actual_apy =>
    match spl_transfer st1.user_source_balance st1.venue_balance net_amount with
    | none => .error (.TokenTransferFailed, st1)
    | some (src2, ven2) =>
    let st2 : EngineState := { st1 with user_source_balance := src2, venue_balance := ven2 }
    match st2.user.active_intents,
        checked_add_u64 st2.user.total_volume st.intent.amount,
        checked_add_u64 st2.protocol.total_intents_executed 1,
        checked_add_u64 st2.protocol.total_fees_collected st.intent.protocol_fee with
    | n + 1, some vol, some texec, some fees =>
      .ok { st2 with
        intent := { st2.intent with
          status := .Executed, executed_at := some now, execution_apy := some actual_apy }
        user := { st2.user with active_intents := n, total_volume := vol }
        protocol := { st2.protocol with
          total_intents_executed := texec, total_fees_collected := fees } }
    | _, _, _, _ => .error (.ArithmeticFault, st2)
  else .error (.WrongProtocol, st)
  else .error (.IntentExpired, st)
  else .error (.IntentNotPending, st)
  else .error (.AccountConstraintViolated, st)

/-- `cancel_intent`: Anchor ownership constraint, then the `Pending` check,
the (redundant) ownership check of the body, the `Cancelled` transition and
the active-counter decrement. -/
def cancel_intent (st : EngineState) (authority : Nat) (now : Int) :
    Except (EngineError × EngineState) EngineState :=
  if st.intent.authority = authority then
  if st.intent.status = .Pending then
  if st.intent.authority = authority then
    match st.user.active_intents with
    | 0 => .error (.ArithmeticFault, st)
    | n + 1 =>
      .ok { st with
        intent := { st.intent with status := .Cancelled, cancelled_at := some now }
        user := { st.user with active_intents := n } }
  else .error (.Unauthorized, st)
  else .error (.IntentNotPending, st)
  else .error (.AccountConstraintViolated, st)

/-- `create_swap_intent`: capacity/pause/validation guards, the 0.3% fee
snapshot, the optional rugproof check, router-driven venue selection, and
the freshly initialized Pending intent with counter increments. -/
def create_swap_intent (protocol : ProtocolState) (user : UserAccount) (authority : Nat)
    (params : SwapIntentParams) (now : Int) :
    Except EngineError (ProtocolState × UserAccount × IntentAccount) :=
  if user.authority = authority then
  if user.active_intents < MAX_INTENTS_PER_USER then
  if protocol.is_paused = false then
  if 0 < params.amount then
  if params.max_slippage ≤ 5000 then
    match (checked_mul_u128 params.amount PROTOCOL_FEE_BPS).bind
        fun t => checked_div_nat t 10000 with
    | none => .error .ArithmeticFault
    | some f =>
      if params.rugproof_enabled = true ∧
          perform_rugproof_check params.to_mint < MIN_RUGPROOF_SCORE then
        .error .RugproofCheckFailed
      else
        match checked_add_u8 user.active_intents 1,
            checked_add_u64 user.total_intents_created 1,
            checked_add_u64 protocol.total_intents_created 1 with
        | some act, some uc, some pc =>
          .ok ({ protocol with total_intents_created := pc },
            { user with active_intents := act, total_intents_created := uc },
            { authority := authority, intent_type := .Swap, status := .Pending
              from_mint := params.from_mint, to_mint := params.to_mint
              amount := params.amount, protocol_fee := f % 2 ^ 64
              max_slippage := params.max_slippage, min_apy := none, target_price := none
              max_price_impact := none, execution_price := none, execution_apy := none
              rugproof_enabled := params.rugproof_enabled
              selected_swap_protocol :=
                choose_best_protocol params.from_mint params.to_mint params.amount
              selected_lending_protocol := none
              created_at := now, expires_at := now + INTENT_EXPIRY_SECONDS
              executed_at := none, cancelled_at := none })
        | _, _, _ => .error .ArithmeticFault
  else .error .SlippageTooHigh
  else .error .InvalidAmount
  else .error .ProtocolPaused
  else .error .TooManyActiveIntents
  else .error .AccountConstraintViolated

/-- `create_lend_intent`. -/
def create_lend_intent (protocol : ProtocolState) (user : UserAccount) (authority : Nat)
    (params : LendIntentParams) (now : Int) :
    Except EngineError (ProtocolState × UserAccount × IntentAccount) :=
  if user.authority = authority then
  if user.active_intents < MAX_INTENTS_PER_USER then
  if protocol.is_paused = false then
  if 0 < params.amount then
  if 0 < params.min_apy ∧ params.min_apy ≤ 10000 then
    match (checked_mul_u128 params.amount PROTOCOL_FEE_BPS).bind
        fun t => checked_div_nat t 10000 with
    | none => .error .ArithmeticFault
    | some f =>
      match checked_add_u8 user.active_intents 1,
          checked_add_u64 user.total_intents_created 1,
          checked_add_u64 protocol.total_intents_created 1 with
      | some act, some uc, some pc =>
        .ok ({ protocol with total_intents_created := pc },
          { user with active_intents := act, total_intents_created := uc },
          { authority := authority, intent_type := .Lend, status := .Pending
            from_mint := params.mint, to_mint := params.mint
            amount := params.amount, protocol_fee := f % 2 ^ 64
            max_slippage := 0, min_apy := some params.min_apy, target_price := none
            max_price_impact := none, execution_price := none, execution_apy := none
            rugproof_enabled := false
            selected_swap_protocol := .Jupiter
            selected_lending_protocol :=
              some (choose_best_lending_protocol params.mint params.amount)
            created_at := now, expires_at := now + INTENT_EXPIRY_SECONDS
            executed_at := none, cancelled_at := none })
      | _, _, _ => .error .ArithmeticFault
  else .error .InvalidAPY
  else .error .InvalidAmount
  else .error .ProtocolPaused
  else .error .TooManyActiveIntents
  else .error .AccountConstraintViolated

/-- `create_buy_intent`. -/
def create_buy_intent (protocol : ProtocolState) (user : UserAccount) (authority : Nat)
    (params : BuyIntentParams) (now : Int) :
    Except EngineError (ProtocolState × UserAccount × IntentAccount) :=
  if user.authority = authority then
  if user.active_intents < MAX_INTENTS_PER_USER then
  if protocol.is_paused = false then
  if 0 < params.usdc_amount then
    match (checked_mul_u128 params.usdc_amount PROTOCOL_FEE_BPS).bind
        fun t => checked_div_nat t 10000 with
    | none => .error .ArithmeticFault
    | some f =>
      if params.rugproof_check = true ∧
          perform_rugproof_check params.mint < MIN_RUGPROOF_SCORE then
        .error .RugproofCheckFailed
      else
        match checked_add_u8 user.active_intents 1,
            checked_add_u64 user.total_intents_created 1,
            checked_add_u64 protocol.total_intents_created 1 with
        | some act, some uc, some pc =>
          .ok ({ protocol with total_intents_created := pc },
            { user with active_intents := act, total_intents_created := uc },
            { authority := authority, intent_type := .Buy, status := .Pending
              from_mint := params.usdc_mint, to_mint := params.mint
              amount := params.usdc_amount, protocol_fee := f % 2 ^ 64
              max_slippage := 0, min_apy := none, target_price := params.target_price
              max_price_impact := some params.max_price_impact
              execution_price := none, execution_apy := none
              rugproof_enabled := params.rugproof_check
              selected_swap_protocol := .Jupiter
              selected_lending_protocol := none
              created_at := now, expires_at := now + INTENT_EXPIRY_SECONDS
              executed_at := none, cancelled_at := none })
        | _, _, _ => .error .ArithmeticFault
  else .error .InvalidAmount
  else .error .ProtocolPaused
  else .error .TooManyActiveIntents
  else .error .AccountConstraintViolated

/-! ## Sample states for witnesses and counterexamples -/

/-- A pending swap intent owned by user 7: 1000 tokens, fee 3, slippage
100 bps, routed to the Jupiter venue. -/
def baseIntent : IntentAccount :=
  { authority := 7, intent_type := .Swap, status := .Pending
    from_mint := 1, to_mint := 2, amount := 1000, protocol_fee := 3
    max_slippage := 100, min_apy := none, target_price := none
    max_price_impact := none, execution_price := none, execution_apy := none
    rugproof_enabled := false, selected_swap_protocol := .Jupiter
    selected_lending_protocol := none
    created_at := 0, expires_at := 1000, executed_at := none, cancelled_at := none }

/-- User 7 with one active intent. -/
def baseUser : UserAccount :=
  { authority := 7, active_intents := 1, total_intents_created := 1
    total_volume := 0, rugproof_enabled := true }

/-- The protocol singleton in its freshly initialized configuration. -/
def baseProtocol : ProtocolState :=
  { authority := 1, treasury_authority := 2, protocol_fee_bps := 30
    total_fees_collected := 0, total_intents_created := 1
    total_intents_executed := 0, is_paused := false }

/-- A settlement context around `baseIntent` with a funded source account. -/
def baseState : EngineState :=
  { protocol := baseProtocol, user := baseUser, intent := baseIntent
    user_source_balance := 5000, user_destination_balance := 0
    treasury_balance := 0, venue_balance := 0 }

/-- Route data whose quoted input and slippage both disagree with
`baseIntent` (the intent's net input is 997 and its slippage 100). -/
def sampleJupiterData : JupiterSwapData :=
  { route_plan := [], in_amount := 999999, quoted_out_amount := 12345
    slippage_bps := 42, platform_fee_bps := 0 }

/-- Claim C4: an intent routed to the direct AMM (Raydium) submitted to the
aggregator (Jupiter) execution path fails with the wrong-venue error, with
the state — treasury balance and all counters included — untouched. -/
theorem jupiter_path_rejects_raydium_intent
    (st : EngineState) (user : Nat) (now : Int) (jupiter_swap_data : JupiterSwapData)
    (hauth : st.intent.authority = user) (huser : st.user.authority = user)
    (hpend : st.intent.status = .Pending) (hexp : now < st.intent.expires_at)
    (hsel : st.intent.selected_swap_protocol = .Raydium) :
    execute_swap_intent_jupiter st user now jupiter_swap_data = .error (.WrongProtocol, st) := by
  unfold execute_swap_intent_jupiter
  rw [if_pos hauth, if_pos huser, if_pos hpend, if_pos hexp, if_neg (by simp [hsel])]

/-- Witness for C4: `baseState` with its intent re-routed to Raydium. -/
theorem jupiter_path_rejects_raydium_intent_witness :
    execute_swap_intent_jupiter
        { baseState with intent := { baseIntent with selected_swap_protocol := .Raydium } }
        7 0 sampleJupiterData
      = .error (.WrongProtocol,
        { baseState with intent := { baseIntent with selected_swap_protocol := .Raydium } }) :=
  jupiter_path_rejects_raydium_intent _ 7 0 sampleJupiterData rfl rfl rfl (by decide) rfl

/-- The rugproof score is at least the minimum passing score. -/
theorem perform_rugproof_check_ge (mint : Nat) :
    MIN_RUGPROOF_SCORE ≤ perform_rugproof_check mint := by
  unfold perform_rugproof_check MIN_RUGPROOF_SCORE
  split_ifs <;> omega

/-- Claim C9: the risk-score check returns only 75, 85 or 95 — all at least
the minimum passing score 70 — so neither swap-intent nor buy-intent
creation can ever fail with `RugproofCheckFailed`. -/
theorem rugproof_failure_unreachable (mint : Nat) (protocol : ProtocolState)
    (user : UserAccount) (authority : Nat) (sparams : SwapIntentParams)
    (bparams : BuyIntentParams) (now : Int) :
    (perform_rugproof_check mint = 75 ∨ perform_rugproof_check mint = 85 ∨
      perform_rugproof_check mint = 95) ∧
    MIN_RUGPROOF_SCORE ≤ perform_rugproof_check mint ∧
    create_swap_intent protocol user authority sparams now ≠ .error .RugproofCheckFailed ∧
    create_buy_intent protocol user authority bparams now ≠ .error .RugproofCheckFailed := by
  refine ⟨?_, perform_rugproof_check_ge mint, ?_, ?_⟩
  · unfold perform_rugproof_check
    split_ifs <;> simp
  · intro h
    have hge := perform_rugproof_check_ge sparams.to_mint
    simp only [MIN_RUGPROOF_SCORE] at hge
    unfold create_swap_intent at h
    split_ifs at h with g1 g2 g3 g4 g5 grug
    all_goals try simp at h
    · obtain ⟨-, hlt⟩ := grug
      simp only [MIN_RUGPROOF_SCORE] at hlt
      omega
    · split at h
      · simp at h
      · split at h <;> simp at h
  · intro h
    have hge := perform_rugproof_check_ge bparams.mint
    simp only [MIN_RUGPROOF_SCORE] at hge
    unfold create_buy_intent at h
    split_ifs at h with g1 g2 g3 g4 grug
    all_goals try simp at h
    · obtain ⟨-, hlt⟩ := grug
      simp only [MIN_RUGPROOF_SCORE] at hlt
      omega
    · split at h
      · simp at h
      · split at h <;> simp at h

/-- Witness for C9 at mint 3 and concrete creation arguments. -/
theorem rugproof_failure_unreachable_witness :
    (perform_rugproof_check 3 = 75 ∨ perform_rugproof_check 3 = 85 ∨
      perform_rugproof_check 3 = 95) ∧
    MIN_RUGPROOF_SCORE ≤ perform_rugproof_check 3 ∧
    create_swap_intent baseProtocol baseUser 7
        { from_mint := 1, to_mint := 2, amount := 1000, max_slippage := 100
          rugproof_enabled := true } 0
      ≠ .error .RugproofCheckFailed ∧
    create_buy_intent baseProtocol baseUser 7
        { mint := 2, usdc_mint := 1, usdc_amount := 1000, target_price := none
          max_price_impact := 50, rugproof_check := true } 0
      ≠ .error .RugproofCheckFailed :=
  rugproof_failure_unreachable 3 baseProtocol baseUser 7
    { from_mint := 1, to_mint := 2, amount := 1000, max_slippage := 100
      rugproof_enabled := true }
    { mint := 2, usdc_mint := 1, usdc_amount := 1000, target_price := none
      max_price_impact := 50, rugproof_check := true } 0

/-- The simplified Jupiter integration always returns
`amount * 950 / 1000` (as u64), whatever route data it is handed. -/
theorem execute_jupiter_swap_simple_ok (params : JupiterSwapParams)
    (swap_data : JupiterSwapData) (r : Nat)
    (h : execute_jupiter_swap_simple params swap_data = .ok r) :
    r = params.amount * 950 / 1000 % 2 ^ 64 := by
  unfold execute_jupiter_swap_simple at h
  split at h
  · simp at h
  next q heq =>
    simp only [checked_mul_u128, checked_div_nat, Option.bind_eq_some,
      Option.ite_none_right_eq_some, Option.some.injEq] at heq
    obtain ⟨t, ⟨-, ht⟩, -, hq⟩ := heq
    simp only [Except.ok.injEq] at h
    subst ht
    subst hq
    subst h
    rfl

/-- The Jupiter instruction path, when it succeeds, records
`netAmount * 950 / 1000` as the realized output. -/
theorem execute_swap_intent_jupiter_output (st : EngineState) (user : Nat) (now : Int)
    (jupiter_swap_data : JupiterSwapData) (st2 : EngineState)
    (h : execute_swap_intent_jupiter st user now jupiter_swap_data = .ok st2) :
    st2.intent.execution_price
      = some ((st.intent.amount - st.intent.protocol_fee) * 950 / 1000 % 2 ^ 64) := by
  unfold execute_swap_intent_jupiter at h
  split_ifs at h
  all_goals try simp at h
  split at h
  · simp at h
  next net_amount hnet =>
    split at h
    · simp at h
    next p hp =>
      split at h
      next e heq => simp at h
      next est heq =>
        have hest := execute_jupiter_swap_simple_ok _ _ _ heq
        split at h
        · simp only [Except.ok.injEq] at h
          subst h
          simp only [checked_sub_nat, Option.ite_none_right_eq_some,
            Option.some.injEq] at hnet
          simp only [hest]
          refine congrArg some ?_
          show net_amount * 950 / 1000 % 2 ^ 64 = _
          rw [← hnet.2]
        · simp at h

/-- Claim C5 (amended): the validating helper `execute_jupiter_swap` rejects
route data whose quoted input or slippage disagrees with the request and on
success returns the pre-quoted output — but it is never called by the
instruction; the aggregator execution path calls
`execute_jupiter_swap_simple`, which ignores the route data entirely and
realizes `netAmount * 950 / 1000`. -/
theorem jupiter_route_validation_bypassed
    (p : JupiterSwapParams) (d : JupiterSwapData) (r : Nat)
    (st : EngineState) (user : Nat) (now : Int) (st2 : EngineState) :
    (d.in_amount ≠ p.amount → execute_jupiter_swap p d = .error .InvalidAmount) ∧
    (d.in_amount = p.amount → d.slippage_bps ≠ p.slippage_bps →
      execute_jupiter_swap p d = .error .SlippageExceeded) ∧
    (execute_jupiter_swap p d = .ok r → r = d.quoted_out_amount) ∧
    (execute_swap_intent_jupiter st user now d = .ok st2 →
      st2.intent.execution_price
        = some ((st.intent.amount - st.intent.protocol_fee) * 950 / 1000 % 2 ^ 64)) := by
  refine ⟨?_, ?_, ?_, execute_swap_intent_jupiter_output st user now d st2⟩
  · intro hne
    unfold execute_jupiter_swap
    rw [if_neg hne]
  · intro heq hne
    unfold execute_jupiter_swap
    rw [if_pos heq, if_neg hne]
  · intro h
    unfold execute_jupiter_swap at h
    split_ifs at h
    split at h
    · simp at h
    · simp only [Except.ok.injEq] at h
      omega

/-- The Jupiter swap parameters the instruction builds for `baseIntent`
(net amount 997, slippage 100). -/
def matchedJupiterParams : JupiterSwapParams :=
  { from_mint := 1, to_mint := 2, amount := 997, slippage_bps := 100, platform_fee_bps := 0 }

/-- Route data agreeing with `matchedJupiterParams`. -/
def matchedJupiterData : JupiterSwapData :=
  { route_plan := [], in_amount := 997, quoted_out_amount := 12345
    slippage_bps := 100, platform_fee_bps := 0 }

/-- Route data agreeing on the input amount but not on slippage. -/
def slippageMismatchData : JupiterSwapData :=
  { route_plan := [], in_amount := 997, quoted_out_amount := 12345
    slippage_bps := 42, platform_fee_bps := 0 }

/-- The state after the Jupiter path settles `baseState`: fee 3 in the
treasury, net 997 priced at 947, counters moved. -/
def jupiterExecutedState : EngineState :=
  { protocol := { baseProtocol with total_intents_executed := 1, total_fees_collected := 3 }
    user := { baseUser with active_intents := 0, total_volume := 1000 }
    intent := { baseIntent with
      status := .Executed, executed_at := some 0, execution_price := some 947 }
    user_source_balance := 4997, user_destination_balance := 0
    treasury_balance := 3, venue_balance := 0 }

/-- Witness for C5: the helper rejects a mismatching input amount and a
mismatching slippage, passes a matching quote through unchanged, and the
instruction path on `baseState` realizes 997 * 950 / 1000 = 947. -/
theorem jupiter_route_validation_bypassed_witness :
    execute_jupiter_swap matchedJupiterParams sampleJupiterData = .error .InvalidAmount ∧
    execute_jupiter_swap matchedJupiterParams slippageMismatchData
      = .error .SlippageExceeded ∧
    (12345 : Nat) = matchedJupiterData.quoted_out_amount ∧
    jupiterExecutedState.intent.execution_price
      = some ((baseState.intent.amount - baseState.intent.protocol_fee) * 950 / 1000
          % 2 ^ 64) :=
  ⟨(jupiter_route_validation_bypassed matchedJupiterParams sampleJupiterData 0
      baseState 7 0 baseState).1 (by decide),
   (jupiter_route_validation_bypassed matchedJupiterParams slippageMismatchData 0
      baseState 7 0 baseState).2.1 (by decide) (by decide),
   (jupiter_route_validation_bypassed matchedJupiterParams matchedJupiterData 12345
      baseState 7 0 baseState).2.2.1 rfl,
   (jupiter_route_validation_bypassed matchedJupiterParams matchedJupiterData 12345
      baseState 7 0 jupiterExecutedState).2.2.2 rfl⟩

/-- Counterexample for claim C5: the aggregator path executes successfully on
route data whose quoted input (999999 ≠ 997) and slippage (42 ≠ 100) both
disagree with the intent, and the realized output is 947 — the locally
simulated value, not the quoted 12345. -/
theorem jupiter_route_validation_counterexample :
    ((execute_swap_intent_jupiter baseState 7 0 sampleJupiterData).map
        fun s => s.intent.execution_price) = .ok (some 947) ∧
    sampleJupiterData.in_amount ≠ 997 ∧
    sampleJupiterData.slippage_bps ≠ baseIntent.max_slippage ∧
    (947 : Nat) ≠ sampleJupiterData.quoted_out_amount := by
  exact ⟨rfl, by decide, by decide, by decide⟩

/-- Claim C10: in the direct-AMM execution path, when the intent's source
mint is the pool's coin mint, the slippage-exceeded branch is unreachable —
the minimum output is `base * (10000 - maxSlippage) / 10000` for the same
`base` the venue call then recomputes from the same reserves. -/
theorem raydium_slippage_unreachable (st : EngineState) (user : Nat) (now : Int)
    (pool_info : RaydiumPoolInfo) (e : EngineError) (st2 : EngineState)
    (hfrom : st.intent.from_mint = pool_info.coin_mint_address)
    (_hslip : st.intent.max_slippage ≤ 10000)
    (h : execute_swap_intent_raydium st user now pool_info = .error (e, st2)) :
    e ≠ .SlippageExceeded := by
  intro he
  subst he
  unfold execute_swap_intent_raydium at h
  rw [hfrom] at h
  simp only [eq_self_iff_true, if_true] at h
  split_ifs at h
  all_goals try simp at h
  split at h
  · simp at h
  next net_amount hnet =>
    split at h
    · simp at h
    next p hp =>
      split at h
      · simp at h
      next base_output hbase =>
        split at h
        · simp at h
        next sm hsm =>
          split at h
          · simp at h
          next m hm =>
            split at h
            next e' heq =>
              have hle : m % 2 ^ 64 ≤ base_output := by
                simp only [checked_mul_u128, checked_div_nat, Option.bind_eq_some,
                  Option.ite_none_right_eq_some, Option.some.injEq] at hm
                obtain ⟨t, ⟨-, ht⟩, -, hq⟩ := hm
                simp only [checked_sub_nat, Option.ite_none_right_eq_some,
                  Option.some.injEq] at hsm
                subst ht
                subst hq
                calc base_output * sm / 10000 % 2 ^ 64
                    ≤ base_output * sm / 10000 := Nat.mod_le _ _
                  _ ≤ base_output * 10000 / 10000 :=
                      Nat.div_le_div_right (Nat.mul_le_mul_left _ (by omega))
                  _ = base_output := Nat.mul_div_cancel _ (by omega)
              unfold execute_raydium_swap_simple at heq
              dsimp only at heq
              rw [hbase] at heq
              dsimp only at heq
              split at heq
              · simp at heq
              next hgt => exact hgt hle
            next est heq =>
              split at h <;> simp at h

/-- A Raydium pool whose coin mint is `baseIntent`'s source mint, with
reserves 1000000 / 2000000. -/
def samplePool : RaydiumPoolInfo :=
  { status := 1, nonce := 0, order_num := 0, depth := 0, coin_decimals := 9
    pc_decimals := 6, state := 0, reset_flag := 0, min_size := 0
    vol_max_cut_ratio := 0, amount_wave_ratio := 0, coin_lot_size := 1
    pc_lot_size := 1, min_price_multiplier := 1, max_price_multiplier := 1
    sys_decimal_value := 1, pool_coin_token_account := 11, pool_pc_token_account := 12
    coin_mint_address := 1, pc_mint_address := 2, lp_mint_address := 13
    amm_open_orders := 14, serum_market := 15, serum_program_id := 16
    amm_target_orders := 17, pool_withdraw_queue := 18
    pool_temp_lp_token_account := 19, amm_owner := 20
    pool_coin_amount := 1000000, pool_pc_amount := 2000000 }

/-- Witness for C10 at a concrete already-executed intent: the error
produced by the Raydium path is `IntentNotPending`, not `SlippageExceeded`. -/
theorem raydium_slippage_unreachable_witness :
    (EngineError.IntentNotPending ≠ EngineError.SlippageExceeded) :=
  raydium_slippage_unreachable
    { baseState with intent :=
      { baseIntent with status := .Executed, selected_swap_protocol := .Raydium } }
    7 0 samplePool .IntentNotPending
    { baseState with intent :=
      { baseIntent with status := .Executed, selected_swap_protocol := .Raydium } }
    rfl (by decide) rfl

/-! ### What each production instruction does to the active-intent counter -/

/-- A successful swap-intent creation presupposes spare capacity, adds one
active intent, and hands back a `Pending` intent of the creator. -/
theorem create_swap_intent_ok (p : ProtocolState) (u : UserAccount) (auth : Nat)
    (params : SwapIntentParams) (now : Int) (p' : ProtocolState) (u' : UserAccount)
    (it : IntentAccount)
    (h : create_swap_intent p u auth params now = .ok (p', u', it)) :
    u.active_intents < 50 ∧ u'.active_intents = u.active_intents + 1 ∧
      it.status = .Pending ∧ u'.authority = u.authority := by
  unfold create_swap_intent at h
  split_ifs at h with g1 g2 g3 g4 g5 grug
  all_goals try simp at h
  · split at h <;> simp at h
  · split at h
    · simp at h
    next f hf =>
      split at h
      next act uc pc hact huc hpc =>
        simp only [Except.ok.injEq, Prod.mk.injEq] at h
        obtain ⟨hp', hu', hit⟩ := h
        subst hp'
        subst hu'
        subst hit
        simp only [checked_add_u8, Option.ite_none_right_eq_some, Option.some.injEq] at hact
        simp only [MAX_INTENTS_PER_USER] at g2
        refine ⟨g2, ?_, rfl, rfl⟩
        show act = u.active_intents + 1
        omega
      · simp at h

/-- A successful lend-intent creation presupposes spare capacity, adds one
active intent, and hands back a `Pending` intent of the creator. -/
theorem create_lend_intent_ok (p : ProtocolState) (u : UserAccount) (auth : Nat)
    (params : LendIntentParams) (now : Int) (p' : ProtocolState) (u' : UserAccount)
    (it : IntentAccount)
    (h : create_lend_intent p u auth params now = .ok (p', u', it)) :
    u.active_intents < 50 ∧ u'.active_intents = u.active_intents + 1 ∧
      it.status = .Pending ∧ u'.authority = u.authority := by
  unfold create_lend_intent at h
  split_ifs at h with g1 g2 g3 g4 g5
  all_goals try simp at h
  split at h
  · simp at h
  next f hf =>
    split at h
    next act uc pc hact huc hpc =>
      simp only [Except.ok.injEq, Prod.mk.injEq] at h
      obtain ⟨hp', hu', hit⟩ := h
      subst hp'
      subst hu'
      subst hit
      simp only [checked_add_u8, Option.ite_none_right_eq_some, Option.some.injEq] at hact
      simp only [MAX_INTENTS_PER_USER] at g2
      refine ⟨g2, ?_, rfl, rfl⟩
      show act = u.active_intents + 1
      omega
    · simp at h

/-- A successful buy-intent creation presupposes spare capacity, adds one
active intent, and hands back a `Pending` intent of the creator. -/
theorem create_buy_intent_ok (p : ProtocolState) (u : UserAccount) (auth : Nat)
    (params : BuyIntentParams) (now : Int) (p' : ProtocolState) (u' : UserAccount)
    (it : IntentAccount)
    (h : create_buy_intent p u auth params now = .ok (p', u', it)) :
    u.active_intents < 50 ∧ u'.active_intents = u.active_intents + 1 ∧
      it.status = .Pending ∧ u'.authority = u.authority := by
  unfold create_buy_intent at h
  split_ifs at h with g1 g2 g3 g4 grug
  all_goals try simp at h
  · split at h <;> simp at h
  · split at h
    · simp at h
    next f hf =>
      split at h
      next act uc pc hact huc hpc =>
        simp only [Except.ok.injEq, Prod.mk.injEq] at h
        obtain ⟨hp', hu', hit⟩ := h
        subst hp'
        subst hu'
        subst hit
        simp only [checked_add_u8, Option.ite_none_right_eq_some, Option.some.injEq] at hact
        simp only [MAX_INTENTS_PER_USER] at g2
        refine ⟨g2, ?_, rfl, rfl⟩
        show act = u.active_intents + 1
        omega
      · simp at h

/-- A successful Jupiter settlement consumes a `Pending` intent, leaves it
non-`Pending`, and decrements the active counter by exactly one. -/
theorem execute_swap_intent_jupiter_ok (st : EngineState) (user : Nat) (now : Int)
    (jupiter_swap_data : JupiterSwapData) (st2 : EngineState)
    (h : execute_swap_intent_jupiter st user now jupiter_swap_data = .ok st2) :
    st.intent.status = .Pending ∧ st2.intent.status ≠ .Pending ∧
      st.user.active_intents = st2.user.active_intents + 1 := by
  unfold execute_swap_intent_jupiter at h
  split_ifs at h with g1 g2 g3 g4 g5
  all_goals try simp at h
  split at h
  · simp at h
  next net hnet =>
    split at h
    · simp at h
    next src tre hsp =>
      split at h
      next e heq => simp at h
      next est heq =>
        split at h
        next n vol texec fees hn hvol htexec hfees =>
          simp only [Except.ok.injEq] at h
          subst h
          refine ⟨g3, by simp, ?_⟩
          simp only at hn ⊢
          omega
        · simp at h

/-- A successful Raydium settlement consumes a `Pending` intent, leaves it
non-`Pending`, and decrements the active counter by exactly one. -/
theorem execute_swap_intent_raydium_ok (st : EngineState) (user : Nat) (now : Int)
    (pool_info : RaydiumPoolInfo) (st2 : EngineState)
    (h : execute_swap_intent_raydium st user now pool_info = .ok st2) :
    st.intent.status = .Pending ∧ st2.intent.status ≠ .Pending ∧
      st.user.active_intents = st2.user.active_intents + 1 := by
  unfold execute_swap_intent_raydium at h
  split_ifs at h with g1 g2 g3 g4 g5
  all_goals try simp at h
  split at h
  · simp at h
  next net hnet =>
    split at h
    · simp at h
    next src tre hsp =>
      split at h
      · simp at h
      next base hbase =>
        split at h
        · simp at h
        next sm hsm =>
          split at h
          · simp at h
          next m hm =>
            split at h
            next e heq => simp at h
            next est heq =>
              split at h
              next n vol texec fees hn hvol htexec hfees =>
                simp only [Except.ok.injEq] at h
                subst h
                refine ⟨g3, by simp, ?_⟩
                simp only at hn ⊢
                omega
              · simp at h
  split at h
  · simp at h
  next net hnet =>
    split at h
    · simp at h
    next src tre hsp =>
      split at h
      · simp at h
      next base hbase =>
        split at h
        · simp at h
        next sm hsm =>
          split at h
          · simp at h
          next m hm =>
            split at h
            next e heq => simp at h
            next est heq =>
              split at h
              next n vol texec fees hn hvol htexec hfees =>
                simp only [Except.ok.injEq] at h
                subst h
                refine ⟨g3, by simp, ?_⟩
                simp only at hn ⊢
                omega
              · simp at h

/-- A successful Solend settlement consumes a `Pending` intent, leaves it
non-`Pending`, and decrements the active counter by exactly one. -/
theorem execute_lend_intent_solend_ok (st : EngineState) (user : Nat) (now : Int)
    (reserve_data : SolendReserve) (st2 : EngineState)
    (h : execute_lend_intent_solend st user now reserve_data = .ok st2) :
    st.intent.status = .Pending ∧ st2.intent.status ≠ .Pending ∧
      st.user.active_intents = st2.user.active_intents + 1 := by
  unfold execute_lend_intent_solend at h
  split_ifs at h with g1 g2 g3 g4
  all_goals try simp at h
  split at h
  · simp at h
  next net hnet =>
    split at h
    · simp at h
    next src tre hsp =>
      split at h
      next e heq => simp at h
      next apy heq =>
        split at h
        · simp at h
        next src2 ven2 hsp2 =>
          split at h
          next n vol texec fees hn hvol htexec hfees =>
            simp only [Except.ok.injEq] at h
            subst h
            refine ⟨g2, by simp, ?_⟩
            simp only at hn ⊢
            omega
          · simp at h

/-- A successful Port Finance settlement consumes a `Pending` intent, leaves
it non-`Pending`, and decrements the active counter by exactly one. -/
theorem execute_lend_intent_port_ok (st : EngineState) (user : Nat) (now : Int)
    (reserve_data : PortReserve) (st2 : EngineState)
    (h : execute_lend_intent_port st user now reserve_data = .ok st2) :
    st.intent.status = .Pending ∧ st2.intent.status ≠ .Pending ∧
      st.user.active_intents = st2.user.active_intents + 1 := by
  unfold execute_lend_intent_port at h
  split_ifs at h with g1 g2 g3 g4
  all_goals try simp at h
  split at h
  · simp at h
  next net hnet =>
    split at h
    · simp at h
    next src tre hsp =>
      split at h
      next e heq => simp at h
      next apy heq =>
        split at h
        · simp at h
        next src2 ven2 hsp2 =>
          split at h
          next n vol texec fees hn hvol htexec hfees =>
            simp only [Except.ok.injEq] at h
            subst h
            refine ⟨g2, by simp, ?_⟩
            simp only at hn ⊢
            omega
          · simp at h

/-- A successful cancellation consumes a `Pending` intent, leaves it
non-`Pending`, and decrements the active counter by exactly one. -/
theorem cancel_intent_ok (st : EngineState) (authority : Nat) (now : Int)
    (st2 : EngineState)
    (h : cancel_intent st authority now = .ok st2) :
    st.intent.status = .Pending ∧ st2.intent.status ≠ .Pending ∧
      st.user.active_intents = st2.user.active_intents + 1 := by
  unfold cancel_intent at h
  split_ifs at h with g1 g2
  all_goals try simp at h
  split at h
  · simp at h
  next n hn =>
    simp only [Except.ok.injEq] at h
    subst h
    refine ⟨g2, by simp, ?_⟩
    simp only at hn ⊢
    omega

end Intentfi

/-! ## Devnet program (`devnet-contract/src/lib.rs`)

The simplified devnet variant: shorter TTLs (1 hour for swaps, 2 hours for
lends), no router, no rugproof check — and, notably, no
`active_intents < MAX_INTENTS_PER_USER` capacity check on either create
path. -/

namespace Devnet

open Intentfi (checked_mul_u128 checked_add_u64 checked_add_u8 checked_sub_nat
  checked_div_nat spl_transfer)

/-- Devnet `IntentType`. -/
inductive IntentType
  | Swap
  | Lend
deriving DecidableEq

/-- Devnet `IntentStatus`. -/
inductive IntentStatus
  | Pending
  | Executed
  | Cancelled
  | Expired
deriving DecidableEq

/-- Devnet `ErrorCode`, extended with the constraint/arithmetic/transfer
failure modes as in the main program's embedding. -/
inductive ErrorCode
  | ProtocolPaused
  | InvalidAmount
  | SlippageTooHigh
  | IntentNotPending
  | IntentExpired
  | InvalidAPY
  | APYTooLow
  | Unauthorized
  | AccountConstraintViolated
  | ArithmeticFault
  | TokenTransferFailed
deriving DecidableEq

/-- Devnet `ProtocolState`. -/
structure ProtocolState where
  authority : Nat
  treasury_authority : Nat
  protocol_fee_bps : Nat
  total_intents_created : Nat
  total_intents_executed : Nat
  is_paused : Bool
deriving DecidableEq

/-- Devnet `UserAccount`. -/
structure UserAccount where
  authority : Nat
  active_intents : Nat
  total_intents_created : Nat
  total_volume : Nat
deriving DecidableEq

/-- Devnet `IntentAccount`. -/
structure IntentAccount where
  authority : Nat
  intent_type : IntentType
  status : IntentStatus
  from_mint : Nat
  to_mint : Nat
  amount : Nat
  protocol_fee : Nat
  max_slippage : Option Nat
  min_apy : Option Nat
  execution_output : Option Nat
  execution_apy : Option Nat
  created_at : Int
  expires_at : Int
  executed_at : Option Int
  cancelled_at : Option Int
deriving DecidableEq

/-- The accounts a devnet settlement instruction touches. -/
structure EngineState where
  protocol : ProtocolState
  user : UserAccount
  intent : IntentAccount
  user_source_balance : Nat
  user_destination_balance : Nat
  treasury_balance : Nat
deriving DecidableEq

/-- Devnet `create_swap_intent`: pause/amount/slippage guards — but no
active-intent capacity check. -/
def create_swap_intent (protocol : ProtocolState) (user : UserAccount) (authority : Nat)
    (from_mint to_mint amount max_slippage : Nat) (now : Int) :
    Except ErrorCode (ProtocolState × UserAccount × IntentAccount) :=
  if user.authority = authority then
  if protocol.is_paused = false then
  if 0 < amount then
  if max_slippage ≤ 1000 then
    match (checked_mul_u128 amount protocol.protocol_fee_bps).bind
        fun t => checked_div_nat t 10000 with
    | none => .error .ArithmeticFault
    | some f =>
      match checked_add_u8 user.active_intents 1,
          checked_add_u64 user.total_intents_created 1,
          checked_add_u64 protocol.total_intents_created 1 with
      | some act, some uc, some pc =>
        .ok ({ protocol with total_intents_created := pc },
          { user with active_intents := act, total_intents_created := uc },
          { authority := authority, intent_type := .Swap, status := .Pending
            from_mint := from_mint, to_mint := to_mint
            amount := amount, protocol_fee := f % 2 ^ 64
            max_slippage := some max_slippage, min_apy := none
            execution_output := none, execution_apy := none
            created_at := now, expires_at := now + 3600
            executed_at := none, cancelled_at := none })
      | _, _, _ => .error .ArithmeticFault
  else .error .SlippageTooHigh
  else .error .InvalidAmount
  else .error .ProtocolPaused
  else .error .AccountConstraintViolated

/-- Devnet `create_lend_intent`: again no capacity check (and no positivity
requirement on `min_apy`). -/
def create_lend_intent (protocol : ProtocolState) (user : UserAccount) (authority : Nat)
    (mint amount min_apy : Nat) (now : Int) :
    Except ErrorCode (ProtocolState × UserAccount × IntentAccount) :=
  if user.authority = authority then
  if protocol.is_paused = false then
  if 0 < amount then
  if min_apy ≤ 10000 then
    match (checked_mul_u128 amount protocol.protocol_fee_bps).bind
        fun t => checked_div_nat t 10000 with
    | none => .error .ArithmeticFault
    | some f =>
      match checked_add_u8 user.active_intents 1,
          checked_add_u64 user.total_intents_created 1,
          checked_add_u64 protocol.total_intents_created 1 with
      | some act, some uc, some pc =>
        .ok ({ protocol with total_intents_created := pc },
          { user with active_intents := act, total_intents_created := uc },
          { authority := authority, intent_type := .Lend, status := .Pending
            from_mint := mint, to_mint := mint
            amount := amount, protocol_fee := f % 2 ^ 64
            max_slippage := none, min_apy := some min_apy
            execution_output := none, execution_apy := none
            created_at := now, expires_at := now + 7200
            executed_at := none, cancelled_at := none })
      | _, _, _ => .error .ArithmeticFault
  else .error .InvalidAPY
  else .error .InvalidAmount
  else .error .ProtocolPaused
  else .error .AccountConstraintViolated

/-- Devnet `execute_swap_intent`: the swap is simulated by a transfer of the
net amount to the user's destination account, with the caller-supplied
`expected_output` recorded as the realized output. -/
def execute_swap_intent (st : EngineState) (user : Nat) (now : Int)
    (expected_output : Nat) : Except (ErrorCode × EngineState) EngineState :=
  if st.intent.authority = user then
  if st.intent.status = .Pending then
  if now < st.intent.expires_at then
  if st.intent.authority = user then
    match checked_sub_nat st.intent.amount st.intent.protocol_fee with
    | none => .error (.ArithmeticFault, st)
    | some net_amount =>
    match spl_transfer st.user_source_balance st.treasury_balance st.intent.protocol_fee with
    | none => .error (.TokenTransferFailed, st)
    | some (src, tre) =>
    let st1 : EngineState := { st with user_source_balance := src, treasury_balance := tre }
    match spl_transfer st1.user_source_balance st1.user_destination_balance net_amount with
    | none => .error (.TokenTransferFailed, st1)
    | some (src2, dst2) =>
    let st2 : EngineState :=
      { st1 with user_source_balance := src2, user_destination_balance := dst2 }
    match st2.user.active_intents,
        checked_add_u64 st2.user.total_volume st.intent.amount,
        checked_add_u64 st2.protocol.total_intents_executed 1 with
    | n + 1, some vol, some texec =>
      .ok { st2 with
        intent := { st2.intent with
          status := .Executed, executed_at := some now
          execution_output := some expected_output }
        user := { st2.user with active_intents := n, total_volume := vol }
        protocol := { st2.protocol with total_intents_executed := texec } }
    | _, _, _ => .error (.ArithmeticFault, st2)
  else .error (.Unauthorized, st)
  else .error (.IntentExpired, st)
  else .error (.IntentNotPending, st)
  else .error (.AccountConstraintViolated, st)

/-- Devnet `execute_lend_intent`: validates the caller-supplied APY against
the intent's minimum, collects the fee, and records the transition. -/
def execute_lend_intent (st : EngineState) (user : Nat) (now : Int)
    (actual_apy : Nat) : Except (ErrorCode × EngineState) EngineState :=
  if st.intent.authority = user then
  if st.intent.status = .Pending then
  if now < st.intent.expires_at then
  if st.intent.authority = user then
  if st.intent.min_apy.getD 0 ≤ actual_apy then
    match checked_sub_nat st.intent.amount st.intent.protocol_fee with
    | none => .error (.ArithmeticFault, st)
    | some _net_amount =>
    match spl_transfer st.user_source_balance st.treasury_balance st.intent.protocol_fee with
    | none => .error (.TokenTransferFailed, st)
    | some (src, tre) =>
    let st1 : EngineState := { st with user_source_balance := src, treasury_balance := tre }
    match st1.user.active_intents,
        checked_add_u64 st1.user.total_volume st.intent.amount,
        checked_add_u64 st1.protocol.total_intents_executed 1 with
    | n + 1, some vol, some texec =>
      .ok { st1 with
        intent := { st1.intent with
          status := .Executed, executed_at := some now
          execution_apy := some actual_apy }
        user := { st1.user with active_intents := n, total_volume := vol }
        protocol := { st1.protocol with total_intents_executed := texec } }
    | _, _, _ => .error (.ArithmeticFault, st1)
  else .error (.APYTooLow, st)
  else .error (.Unauthorized, st)
  else .error (.IntentExpired, st)
  else .error (.IntentNotPending, st)
  else .error (.AccountConstraintViolated, st)

/-- Devnet `cancel_intent`. -/
def cancel_intent (st : EngineState) (authority : Nat) (now : Int) :
    Except (ErrorCode × EngineState) EngineState :=
  if st.intent.authority = authority then
  if st.intent.status = .Pending then
  if st.intent.authority = authority then
    match st.user.active_intents with
    | 0 => .error (.ArithmeticFault, st)
    | n + 1 =>
      .ok { st with
        intent := { st.intent with status := .Cancelled, cancelled_at := some now }
        user := { st.user with active_intents := n } }
  else .error (.Unauthorized, st)
  else .error (.IntentNotPending, st)
  else .error (.AccountConstraintViolated, st)

/-- The per-user account ledger of the devnet program. -/
structure DevnetLedger where
  protocol : ProtocolState
  user : UserAccount
  intents : List IntentAccount
  user_source_balance : Nat
  user_destination_balance : Nat
  treasury_balance : Nat
deriving DecidableEq

/-- One devnet engine operation. -/
inductive DevnetOp
  | createSwap (from_mint to_mint amount max_slippage : Nat) (now : Int)
  | createLend (mint amount min_apy : Nat) (now : Int)
  | execSwap (i : Nat) (user : Nat) (now : Int) (expected_output : Nat)
  | execLend (i : Nat) (user : Nat) (now : Int) (actual_apy : Nat)
  | cancel (i : Nat) (authority : Nat) (now : Int)

/-- The settlement context a devnet instruction sees for one intent. -/
def DevnetLedger.engineState (l : DevnetLedger) (it : IntentAccount) : EngineState :=
  { protocol := l.protocol, user := l.user, intent := it
    user_source_balance := l.user_source_balance
    user_destination_balance := l.user_destination_balance
    treasury_balance := l.treasury_balance }

/-- Committing a successful devnet settlement back to the ledger. -/
def DevnetLedger.writeBack (l : DevnetLedger) (i : Nat) (st : EngineState) : DevnetLedger :=
  { protocol := st.protocol, user := st.user, intents := l.intents.set i st.intent
    user_source_balance := st.user_source_balance
    user_destination_balance := st.user_destination_balance
    treasury_balance := st.treasury_balance }

/-- Run a devnet settlement instruction on intent `i` as one transaction. -/
def applyDevnetExec (l : DevnetLedger) (i : Nat)
    (f : EngineState → Except (ErrorCode × EngineState) EngineState) : DevnetLedger :=
  match l.intents[i]? with
  | none => l
  | some it =>
    match f (l.engineState it) with
    | .error _ => l
    | .ok st => l.writeBack i st

/-- Run a devnet creation instruction as one transaction. -/
def applyDevnetCreate (l : DevnetLedger)
    (r : Except ErrorCode (ProtocolState × UserAccount × IntentAccount)) : DevnetLedger :=
  match r with
  | .error _ => l
  | .ok (p, u, it) => { l with protocol := p, user := u, intents := l.intents ++ [it] }

/-- Apply one devnet engine operation to the ledger. -/
def applyDevnetOp (l : DevnetLedger) (op : DevnetOp) : DevnetLedger :=
  match op with
  | .createSwap from_mint to_mint amount max_slippage now =>
    applyDevnetCreate l
      (create_swap_intent l.protocol l.user l.user.authority from_mint to_mint amount
        max_slippage now)
  | .createLend mint amount min_apy now =>
    applyDevnetCreate l
      (create_lend_intent l.protocol l.user l.user.authority mint amount min_apy now)
  | .execSwap i user now expected_output =>
    applyDevnetExec l i fun st => execute_swap_intent st user now expected_output
  | .execLend i user now actual_apy =>
    applyDevnetExec l i fun st => execute_lend_intent st user now actual_apy
  | .cancel i authority now =>
    applyDevnetExec l i fun st => cancel_intent st authority now

/-- Apply a sequence of devnet engine operations. -/
def runDevnetOps (l : DevnetLedger) (ops : List DevnetOp) : DevnetLedger :=
  ops.foldl applyDevnetOp l

/-- A freshly initialized devnet ledger. -/
def initDevnetLedger (owner src dst tre : Nat) : DevnetLedger :=
  { protocol :=
      { authority := 0, treasury_authority := 0, protocol_fee_bps := 30
        total_intents_created := 0, total_intents_executed := 0, is_paused := false }
    user := { authority := owner, active_intents := 0, total_intents_created := 0
              total_volume := 0 }
    intents := []
    user_source_balance := src, user_destination_balance := dst, treasury_balance := tre }

end Devnet

set_option maxRecDepth 4000 in
/-- Counterexample for claim C1: the devnet creation paths have no capacity
check, so 51 consecutive swap-intent creations by a fresh user drive
`active_intents` to 51, above the 50-intent ceiling. -/
theorem devnet_active_intents_exceed_ceiling :
    50 < (Devnet.runDevnetOps (Devnet.initDevnetLedger 7 0 0 0)
        (List.replicate 51 (Devnet.DevnetOp.createSwap 1 2 1000 100 0))).user.active_intents := by
  have h : (Devnet.runDevnetOps (Devnet.initDevnetLedger 7 0 0 0)
      (List.replicate 51 (Devnet.DevnetOp.createSwap 1 2 1000 100 0))).user.active_intents
      = 51 := rfl
  omega

namespace Intentfi

/-- Claim C8: every execution path — the four production settlement
instructions and the two devnet ones — requires the calling signer to be the
intent's owner; any other caller fails on the Anchor ownership constraint
with the state untouched. -/
theorem executions_require_intent_owner
    (st : EngineState) (dst : Devnet.EngineState) (user : Nat) (now : Int)
    (jupiter_swap_data : JupiterSwapData) (pool_info : RaydiumPoolInfo)
    (sreserve : SolendReserve) (preserve : PortReserve)
    (expected_output actual_apy : Nat)
    (h1 : st.intent.authority ≠ user) (h2 : dst.intent.authority ≠ user) :
    execute_swap_intent_jupiter st user now jupiter_swap_data
        = .error (.AccountConstraintViolated, st) ∧
    execute_swap_intent_raydium st user now pool_info
        = .error (.AccountConstraintViolated, st) ∧
    execute_lend_intent_solend st user now sreserve
        = .error (.AccountConstraintViolated, st) ∧
    execute_lend_intent_port st user now preserve
        = .error (.AccountConstraintViolated, st) ∧
    Devnet.execute_swap_intent dst user now expected_output
        = .error (.AccountConstraintViolated, dst) ∧
    Devnet.execute_lend_intent dst user now actual_apy
        = .error (.AccountConstraintViolated, dst) := by
  refine ⟨?_, ?_, ?_, ?_, ?_, ?_⟩
  · unfold execute_swap_intent_jupiter
    rw [if_neg h1]
  · unfold execute_swap_intent_raydium
    rw [if_neg h1]
  · unfold execute_lend_intent_solend
    rw [if_neg h1]
  · unfold execute_lend_intent_port
    rw [if_neg h1]
  · unfold Devnet.execute_swap_intent
    rw [if_neg h2]
  · unfold Devnet.execute_lend_intent
    rw [if_neg h2]

/-! ### The account ledger and the active-intent invariant (claim C1)

One user's view of the ledger: the protocol singleton, the user's account,
the user's intents in creation order, and the token balances the settlement
paths touch. Each operation is one transaction: it runs the corresponding
instruction on the accounts it names and is rolled back wholesale (ledger
unchanged) if the instruction fails — the Solana runtime's atomicity. -/

/-- The per-user ledger of the production program. -/
structure Ledger where
  protocol : ProtocolState
  user : UserAccount
  intents : List IntentAccount
  user_source_balance : Nat
  user_destination_balance : Nat
  treasury_balance : Nat
  venue_balance : Nat
deriving DecidableEq

/-- One engine operation. Execution and cancellation address an intent by
its index in the ledger. -/
inductive MainOp
  | createSwap (params : SwapIntentParams) (now : Int)
  | createLend (params : LendIntentParams) (now : Int)
  | createBuy (params : BuyIntentParams) (now : Int)
  | execJupiter (i : Nat) (user : Nat) (now : Int) (jupiter_swap_data : JupiterSwapData)
  | execRaydium (i : Nat) (user : Nat) (now : Int) (pool_info : RaydiumPoolInfo)
  | execSolend (i : Nat) (user : Nat) (now : Int) (reserve_data : SolendReserve)
  | execPort (i : Nat) (user : Nat) (now : Int) (reserve_data : PortReserve)
  | cancel (i : Nat) (authority : Nat) (now : Int)

/-- The settlement context an instruction sees for one intent of the ledger. -/
def Ledger.engineState (l : Ledger) (it : IntentAccount) : EngineState :=
  { protocol := l.protocol, user := l.user, intent := it
    user_source_balance := l.user_source_balance
    user_destination_balance := l.user_destination_balance
    treasury_balance := l.treasury_balance, venue_balance := l.venue_balance }

/-- Committing a successful settlement of intent `i` back to the ledger. -/
def Ledger.writeBack (l : Ledger) (i : Nat) (st : EngineState) : Ledger :=
  { protocol := st.protocol, user := st.user, intents := l.intents.set i st.intent
    user_source_balance := st.user_source_balance
    user_destination_balance := st.user_destination_balance
    treasury_balance := st.treasury_balance, venue_balance := st.venue_balance }

/-- Run a settlement instruction on intent `i` as one transaction. -/
def applyExec (l : Ledger) (i : Nat)
    (f : EngineState → Except (EngineError × EngineState) EngineState) : Ledger :=
  match l.intents[i]? with
  | none => l
  | some it =>
    match f (l.engineState it) with
    | .error _ => l
    | .ok st => l.writeBack i st

/-- Run a creation instruction as one transaction. -/
def applyCreate (l : Ledger)
    (r : Except EngineError (ProtocolState × UserAccount × IntentAccount)) : Ledger :=
  match r with
  | .error _ => l
  | .ok (p, u, it) => { l with protocol := p, user := u, intents := l.intents ++ [it] }

/-- Apply one engine operation to the ledger (creations are signed by the
ledger's user, matching the PDA derivation of the user account). -/
def applyOp (l : Ledger) (op : MainOp) : Ledger :=
  match op with
  | .createSwap params now =>
    applyCreate l (create_swap_intent l.protocol l.user l.user.authority params now)
  | .createLend params now =>
    applyCreate l (create_lend_intent l.protocol l.user l.user.authority params now)
  | .createBuy params now =>
    applyCreate l (create_buy_intent l.protocol l.user l.user.authority params now)
  | .execJupiter i user now jupiter_swap_data =>
    applyExec l i fun st => execute_swap_intent_jupiter st user now jupiter_swap_data
  | .execRaydium i user now pool_info =>
    applyExec l i fun st => execute_swap_intent_raydium st user now pool_info
  | .execSolend i user now reserve_data =>
    applyExec l i fun st => execute_lend_intent_solend st user now reserve_data
  | .execPort i user now reserve_data =>
    applyExec l i fun st => execute_lend_intent_port st user now reserve_data
  | .cancel i authority now =>
    applyExec l i fun st => cancel_intent st authority now

/-- Apply a sequence of engine operations. -/
def runOps (l : Ledger) (ops : List MainOp) : Ledger :=
  ops.foldl applyOp l

/-- The number of `Pending` intents in a list. -/
def countPending (intents : List IntentAccount) : Nat :=
  intents.countP fun it => decide (it.status = .Pending)

/-- A ledger freshly initialized by `initialize_protocol` and
`initialize_user`: no intents, a zeroed active counter, and arbitrary
starting token balances. -/
def initLedger (owner src dst tre ven : Nat) : Ledger :=
  { protocol :=
      { authority := 0, treasury_authority := 0, protocol_fee_bps := PROTOCOL_FEE_BPS
        total_fees_collected := 0, total_intents_created := 0
        total_intents_executed := 0, is_paused := false }
    user :=
      { authority := owner, active_intents := 0, total_intents_created := 0
        total_volume := 0, rugproof_enabled := true }
    intents := []
    user_source_balance := src, user_destination_balance := dst
    treasury_balance := tre, venue_balance := ven }

/-- Replacing one list element exchanges its contribution to `countP`. -/
theorem countP_set (p : IntentAccount → Bool) (l : List IntentAccount) (i : Nat)
    (a : IntentAccount) (hi : i < l.length) :
    (l.set i a).countP p + (if p l[i] then 1 else 0)
      = l.countP p + (if p a then 1 else 0) := by
  induction l generalizing i with
  | nil => cases hi
  | cons x xs ih =>
    cases i with
    | zero =>
      simp only [List.set_cons_zero, List.countP_cons, List.getElem_cons_zero]
      omega
    | succ j =>
      have hj : j < xs.length := by simpa using hi
      have := ih j hj
      simp only [List.set_cons_succ, List.countP_cons, List.getElem_cons_succ]
      omega

/-- The ledger invariant of claim C1: the active counter equals the number
of `Pending` intents and never exceeds the 50-intent ceiling. -/
def LedgerInv (l : Ledger) : Prop :=
  l.user.active_intents = countPending l.intents ∧ l.user.active_intents ≤ 50

/-- Every engine operation preserves the ledger invariant. -/
theorem applyOp_preserves_inv (l : Ledger) (op : MainOp) (h : LedgerInv l) :
    LedgerInv (applyOp l op) := by
  obtain ⟨hcnt, hle⟩ := h
  cases op with
  | createSwap params now =>
    simp only [applyOp, applyCreate]
    cases hres : create_swap_intent l.protocol l.user l.user.authority params now with
    | error e => exact (⟨hcnt, hle⟩ : LedgerInv l)
    | ok t =>
      obtain ⟨p', u', it⟩ := t
      obtain ⟨hlt, hinc, hpend, -⟩ := create_swap_intent_ok _ _ _ _ _ _ _ _ hres
      constructor
      · show u'.active_intents = countPending (l.intents ++ [it])
        rw [hinc, hcnt]
        simp [countPending, List.countP_append, List.countP_cons, hpend]
      · show u'.active_intents ≤ 50
        omega
  | createLend params now =>
    simp only [applyOp, applyCreate]
    cases hres : create_lend_intent l.protocol l.user l.user.authority params now with
    | error e => exact (⟨hcnt, hle⟩ : LedgerInv l)
    | ok t =>
      obtain ⟨p', u', it⟩ := t
      obtain ⟨hlt, hinc, hpend, -⟩ := create_lend_intent_ok _ _ _ _ _ _ _ _ hres
      constructor
      · show u'.active_intents = countPending (l.intents ++ [it])
        rw [hinc, hcnt]
        simp [countPending, List.countP_append, List.countP_cons, hpend]
      · show u'.active_intents ≤ 50
        omega
  | createBuy params now =>
    simp only [applyOp, applyCreate]
    cases hres : create_buy_intent l.protocol l.user l.user.authority params now with
    | error e => exact (⟨hcnt, hle⟩ : LedgerInv l)
    | ok t =>
      obtain ⟨p', u', it⟩ := t
      obtain ⟨hlt, hinc, hpend, -⟩ := create_buy_intent_ok _ _ _ _ _ _ _ _ hres
      constructor
      · show u'.active_intents = countPending (l.intents ++ [it])
        rw [hinc, hcnt]
        simp [countPending, List.countP_append, List.countP_cons, hpend]
      · show u'.active_intents ≤ 50
        omega
  | execJupiter i user now jupiter_swap_data =>
    simp only [applyOp]
    cases hidx : l.intents[i]? with
    | none =>
      simp only [applyExec, hidx]
      exact ⟨hcnt, hle⟩
    | some it =>
      cases hres : execute_swap_intent_jupiter (l.engineState it) user now jupiter_swap_data with
      | error e =>
        simp only [applyExec, hidx, hres]
        exact ⟨hcnt, hle⟩
      | ok st =>
        simp only [applyExec, hidx, hres]
        obtain ⟨hpend, hnpend, hdec⟩ := execute_swap_intent_jupiter_ok _ _ _ _ _ hres
        obtain ⟨hi, hget⟩ := List.getElem?_eq_some_iff.mp hidx
        have hcps := countP_set (fun x => decide (x.status = .Pending)) l.intents i st.intent hi
        simp only [Ledger.engineState] at hpend hnpend hdec
        rw [hget] at hcps
        rw [if_pos (by simp [hpend]), if_neg (by simp [hnpend])] at hcps
        simp only [countPending] at hcnt
        constructor
        · show st.user.active_intents = countPending (l.intents.set i st.intent)
          simp only [countPending]
          omega
        · show st.user.active_intents ≤ 50
          omega
  | execRaydium i user now pool_info =>
    simp only [applyOp]
    cases hidx : l.intents[i]? with
    | none =>
      simp only [applyExec, hidx]
      exact ⟨hcnt, hle⟩
    | some it =>
      cases hres : execute_swap_intent_raydium (l.engineState it) user now pool_info with
      | error e =>
        simp only [applyExec, hidx, hres]
        exact ⟨hcnt, hle⟩
      | ok st =>
        simp only [applyExec, hidx, hres]
        obtain ⟨hpend, hnpend, hdec⟩ := execute_swap_intent_raydium_ok _ _ _ _ _ hres
        obtain ⟨hi, hget⟩ := List.getElem?_eq_some_iff.mp hidx
        have hcps := countP_set (fun x => decide (x.status = .Pending)) l.intents i st.intent hi
        simp only [Ledger.engineState] at hpend hnpend hdec
        rw [hget] at hcps
        rw [if_pos (by simp [hpend]), if_neg (by simp [hnpend])] at hcps
        simp only [countPending] at hcnt
        constructor
        · show st.user.active_intents = countPending (l.intents.set i st.intent)
          simp only [countPending]
          omega
        · show st.user.active_intents ≤ 50
          omega
  | execSolend i user now reserve_data =>
    simp only [applyOp]
    cases hidx : l.intents[i]? with
    | none =>
      simp only [applyExec, hidx]
      exact ⟨hcnt, hle⟩
    | some it =>
      cases hres : execute_lend_intent_solend (l.engineState it) user now reserve_data with
      | error e =>
        simp only [applyExec, hidx, hres]
        exact ⟨hcnt, hle⟩
      | ok st =>
        simp only [applyExec, hidx, hres]
        obtain ⟨hpend, hnpend, hdec⟩ := execute_lend_intent_solend_ok _ _ _ _ _ hres
        obtain ⟨hi, hget⟩ := List.getElem?_eq_some_iff.mp hidx
        have hcps := countP_set (fun x => decide (x.status = .Pending)) l.intents i st.intent hi
        simp only [Ledger.engineState] at hpend hnpend hdec
        rw [hget] at hcps
        rw [if_pos (by simp [hpend]), if_neg (by simp [hnpend])] at hcps
        simp only [countPending] at hcnt
        constructor
        · show st.user.active_intents = countPending (l.intents.set i st.intent)
          simp only [countPending]
          omega
        · show st.user.active_intents ≤ 50
          omega
  | execPort i user now reserve_data =>
    simp only [applyOp]
    cases hidx : l.intents[i]? with
    | none =>
      simp only [applyExec, hidx]
      exact ⟨hcnt, hle⟩
    | some it =>
      cases hres : execute_lend_intent_port (l.engineState it) user now reserve_data with
      | error e =>
        simp only [applyExec, hidx, hres]
        exact ⟨hcnt, hle⟩
      | ok st =>
        simp only [applyExec, hidx, hres]
        obtain ⟨hpend, hnpend, hdec⟩ := execute_lend_intent_port_ok _ _ _ _ _ hres
        obtain ⟨hi, hget⟩ := List.getElem?_eq_some_iff.mp hidx
        have hcps := countP_set (fun x => decide (x.status = .Pending)) l.intents i st.intent hi
        simp only [Ledger.engineState] at hpend hnpend hdec
        rw [hget] at hcps
        rw [if_pos (by simp [hpend]), if_neg (by simp [hnpend])] at hcps
        simp only [countPending] at hcnt
        constructor
        · show st.user.active_intents = countPending (l.intents.set i st.intent)
          simp only [countPending]
          omega
        · show st.user.active_intents ≤ 50
          omega
  | cancel i authority now =>
    simp only [applyOp]
    cases hidx : l.intents[i]? with
    | none =>
      simp only [applyExec, hidx]
      exact ⟨hcnt, hle⟩
    | some it =>
      cases hres : cancel_intent (l.engineState it) authority now with
      | error e =>
        simp only [applyExec, hidx, hres]
        exact ⟨hcnt, hle⟩
      | ok st =>
        simp only [applyExec, hidx, hres]
        obtain ⟨hpend, hnpend, hdec⟩ := cancel_intent_ok _ _ _ _ hres
        obtain ⟨hi, hget⟩ := List.getElem?_eq_some_iff.mp hidx
        have hcps := countP_set (fun x => decide (x.status = .Pending)) l.intents i st.intent hi
        simp only [Ledger.engineState] at hpend hnpend hdec
        rw [hget] at hcps
        rw [if_pos (by simp [hpend]), if_neg (by simp [hnpend])] at hcps
        simp only [countPending] at hcnt
        constructor
        · show st.user.active_intents = countPending (l.intents.set i st.intent)
          simp only [countPending]
          omega
        · show st.user.active_intents ≤ 50
          omega

/-- Claim C1 (amended): for the production program, starting from a freshly
initialized user, after any sequence of engine operations the active-intent
counter is at most 50 and always equals the number of the user's `Pending`
intents — so it can never go negative: every decrement settles or cancels a
`Pending` intent, whose existence forces the counter to be positive. (The
original claim fails for the devnet program, whose creation paths have no
capacity check.) -/
theorem active_intents_invariant (owner src dst tre ven : Nat) (ops : List MainOp) :
    (runOps (initLedger owner src dst tre ven) ops).user.active_intents ≤ 50 ∧
    (runOps (initLedger owner src dst tre ven) ops).user.active_intents
      = countPending (runOps (initLedger owner src dst tre ven) ops).intents := by
  have hrun : ∀ (l : Ledger), LedgerInv l → LedgerInv (runOps l ops) := by
    induction ops with
    | nil => exact fun l hl => hl
    | cons op rest ih => exact fun l hl => ih (applyOp l op) (applyOp_preserves_inv l op hl)
  have hinit : LedgerInv (initLedger owner src dst tre ven) := by
    refine ⟨rfl, ?_⟩
    show (0 : Nat) ≤ 50
    omega
  obtain ⟨h1, h2⟩ := hrun _ hinit
  exact ⟨h2, h1⟩

/-- A devnet analogue of `baseState`: a pending swap intent owned by user 7. -/
def devnetBaseState : Devnet.EngineState :=
  { protocol :=
      { authority := 1, treasury_authority := 2, protocol_fee_bps := 30
        total_intents_created := 1, total_intents_executed := 0, is_paused := false }
    user := { authority := 7, active_intents := 1, total_intents_created := 1
              total_volume := 0 }
    intent :=
      { authority := 7, intent_type := .Swap, status := .Pending
        from_mint := 1, to_mint := 2, amount := 1000, protocol_fee := 3
        max_slippage := some 100, min_apy := none
        execution_output := none, execution_apy := none
        created_at := 0, expires_at := 3600, executed_at := none, cancelled_at := none }
    user_source_balance := 5000, user_destination_balance := 0, treasury_balance := 0 }

/-- Witness for C8: caller 9 is rejected by all six execution paths on the
concrete sample states. -/
theorem executions_require_intent_owner_witness :
    execute_swap_intent_jupiter baseState 9 0 sampleJupiterData
        = .error (.AccountConstraintViolated, baseState) ∧
    execute_swap_intent_raydium baseState 9 0 samplePool
        = .error (.AccountConstraintViolated, baseState) ∧
    execute_lend_intent_solend baseState 9 0 sampleSolendReserve
        = .error (.AccountConstraintViolated, baseState) ∧
    execute_lend_intent_port baseState 9 0 samplePortReserve
        = .error (.AccountConstraintViolated, baseState) ∧
    Devnet.execute_swap_intent devnetBaseState 9 0 900
        = .error (.AccountConstraintViolated, devnetBaseState) ∧
    Devnet.execute_lend_intent devnetBaseState 9 0 500
        = .error (.AccountConstraintViolated, devnetBaseState) :=
  executions_require_intent_owner baseState devnetBaseState 9 0 sampleJupiterData
    samplePool sampleSolendReserve samplePortReserve 900 500 (by decide) (by decide)

end Intentfi
